import Mathlib

/-!
WebOSMediaPlayer: the playback session controller.

A shallow embedding of `src/native/app/src/WebOSMediaPlayer.cpp` (with the
private data of `WebOSMediaPlayer_p.h`).  The controller talks to the media
service through the luna-service2 calls `LSRegister`, `LSCall`,
`LSCallOneReply` and `LSUnregister`; these, and the Qt JSON reader, are
external to the repository and appear here as parameters (`Transport`,
`Platform`).  Every operation is a function on a `World`: the private data,
the state of the transport, and the trace of what the controller did
(transport calls and emitted Qt signals, in program order).
-/

namespace WebOSMediaPlayer

/-! ## Qt JSON values -/

/-- A `QJsonValue`.  A number node carries the numeric value it denotes;
`toDouble` is where the binary64 rounding happens. -/
inductive QJsonValue where
  | null
  | bool (b : Bool)
  | double (x : ℚ)
  | string (s : String)
  | array (xs : List QJsonValue)
  | object (members : List (String × QJsonValue))
  | undefined

/-- A `QJsonObject`: its members, keyed by name. -/
abbrev QJsonObject := List (String × QJsonValue)

/-- A `QJsonDocument`: null (also the result of a failed parse), an array or an object. -/
inductive QJsonDocument where
  | null
  | ofArray (xs : List QJsonValue)
  | ofObject (o : QJsonObject)

/-! ## binary64 arithmetic on exact rationals -/

/-- Nearest integer to `y`, ties to the even neighbour. -/
def roundHalfEven (y : ℚ) : Int :=
  let f := ⌊y⌋
  if y - f < 1 / 2 then f
  else if 1 / 2 < y - f then f + 1
  else if f % 2 = 0 then f else f + 1

/-- Exponent of the binade of a positive `x`, clamped at the subnormal range. -/
def binade (x : ℚ) : Int := max (Int.log 2 x) (-1022)

/-- Spacing of binary64 numbers (53 significant bits) around a positive `x`. -/
def ulp (x : ℚ) : ℚ := (2 : ℚ) ^ (binade x - 52)

/-- Round a non-negative rational to the nearest binary64 number, ties to even. -/
def roundPos (x : ℚ) : ℚ := roundHalfEven (x / ulp x) * ulp x

/-- Round to nearest binary64, ties to even (finite range). -/
def roundToDouble (x : ℚ) : ℚ := if x < 0 then -(roundPos (-x)) else roundPos x

/-- C++ `a / b` on doubles: the exact quotient, correctly rounded. -/
def fdiv (a b : ℚ) : ℚ := roundToDouble (a / b)

/-- Truncation toward zero. -/
def truncate (x : ℚ) : Int := Int.tdiv x.num x.den

/-- Wrap-around to the range of `qint64`. -/
def wrapInt64 (x : Int) : Int := (x + 2 ^ 63) % 2 ^ 64 - 2 ^ 63

/-- What the Qt library and the C++ implementation leave open. -/
structure Platform where
  /-- `QJsonDocument::fromJson` on the UTF-8 bytes of a text. -/
  fromJson : String → QJsonDocument
  /-- Result of converting to `qint64` a double whose truncation does not fit
  (undefined behaviour in C++, so any value). -/
  outOfRange : ℚ → Int

/-- Conversion `double → qint64` (initialising a `qint64` from a double). -/
def toQint64 (P : Platform) (x : ℚ) : Int :=
  let t := truncate x
  if -(2 : Int) ^ 63 ≤ t ∧ t < 2 ^ 63 then t else P.outOfRange x

namespace QJsonValue

/-- `QJsonValue::toString()`: the string, or the default (empty) when the value is no string. -/
def toString : QJsonValue → String
  | .string s => s
  | _ => ""

/-- `QJsonValue::toDouble()`: the number as a double, or the default 0 when the value is no number. -/
def toDouble : QJsonValue → ℚ
  | .double x => roundToDouble x
  | _ => 0

end QJsonValue

/-- `QJsonObject::value(key)`: the member, or `Undefined` when absent. -/
def QJsonObject.value (o : QJsonObject) (key : String) : QJsonValue :=
  match o.lookup key with
  | some v => v
  | none => .undefined

/-- `QJsonDocument::object()`: the object, or an empty object when the document holds none. -/
def QJsonDocument.object : QJsonDocument → QJsonObject
  | .ofObject o => o
  | _ => []

/-! ## luna-service2 transport -/

/-- An `LSHandle *` that is not null; a null handle is `none`. -/
abbrev LSHandle := Nat

abbrev LSToken := Nat

def LSMESSAGE_TOKEN_INVALID : LSToken := 0

/-- An `LSError`, of which the controller reads the message only;
`LSErrorInit` leaves it empty. -/
structure LSError where
  message : String
deriving DecidableEq, Repr

def LSErrorInit : LSError := ⟨""⟩

/-- Outcome of `LSRegister`: `some h` when it returns true and stores the
handle `h`; `none` when it returns false, with the handle argument untouched. -/
structure LSRegisterResult where
  handle : Option LSHandle
  message : String

/-- Outcome of `LSCall`. -/
structure LSCallResult where
  ok : Bool
  message : String

/-- Outcome of `LSCallOneReply`: its return value, the error message, the
token it stored (if it stored one), and the payload of the reply when the
callback runs before the call returns. -/
structure LSCallOneReplyResult where
  ok : Bool
  message : String
  token : Option LSToken
  reply : Option String

/-- The media service side: an arbitrary deterministic machine with state `τ`
answering each call, given the handle, the uri and the request object. -/
structure Transport (τ : Type) where
  LSRegister : τ → LSRegisterResult × τ
  LSCall : Option LSHandle → String → QJsonObject → τ → LSCallResult × τ
  LSCallOneReply : Option LSHandle → String → QJsonObject → τ → LSCallOneReplyResult × τ
  LSUnregister : LSHandle → τ → τ

/-! ## Observations -/

/-- The Qt signals of `WebOSMediaPlayer`. -/
inductive Signal where
  | stateChanged (state : String)
  | progressChanged (position : Int)
  | durationChanged (duration : Int)
  | errorOccurred (message : String)
deriving DecidableEq, Repr

/-- A call into luna-service2. -/
inductive LunaCall where
  | register
  | call (handle : Option LSHandle) (uri : String) (payload : QJsonObject)
  | callOneReply (handle : Option LSHandle) (uri : String) (payload : QJsonObject)
  | unregister (handle : LSHandle)

/-- One observable action of the controller. -/
inductive Obs where
  | rpc (c : LunaCall)
  | signal (s : Signal)

/-! ## Controller data -/

/-- The poll timer (a `QTimer`): its interval and whether it is running. -/
structure QTimer where
  interval : Nat
  active : Bool
deriving DecidableEq, Repr

structure WebOSMediaPlayerPrivate where
  sessionHandle : Option LSHandle
  statusToken : LSToken
  sessionId : String
  state : String
  lastStatus : String
  pollTimer : QTimer
  lastError : LSError
deriving DecidableEq, Repr

/-- The controller together with its environment. -/
structure World (τ : Type) where
  d : WebOSMediaPlayerPrivate
  bus : τ
  trace : List Obs

def kServiceUri : String := "luna://com.webos.media"
def kRegister : String := "register"
def kLoad : String := "load"
def kPlay : String := "play"
def kPause : String := "pause"
def kSeek : String := "seek"
def kStop : String := "stop"
def kStateStatus : String := "status"
def kCurrentTime : String := "currentTime"
def kDuration : String := "duration"
def kStatusIntervalMs : Nat := 750

/-- The endpoint address `QString("%1/%2").arg(kServiceUri, method)`. -/
def endpoint (method : String) : String := kServiceUri ++ "/" ++ method

variable {τ : Type}

/-- Emitting a signal: `emit sig`. -/
def emit (sig : Signal) (w : World τ) : World τ :=
  { w with trace := w.trace ++ [Obs.signal sig] }

/-- Constructor: a new private part with a stopped timer, then the interval is set. -/
def init (bus : τ) : World τ :=
  { d := { sessionHandle := none
           statusToken := LSMESSAGE_TOKEN_INVALID
           sessionId := ""
           state := ""
           lastStatus := ""
           pollTimer := { interval := kStatusIntervalMs, active := false }
           lastError := LSErrorInit }
    bus := bus
    trace := [] }

/-- The function `updateState`. -/
def updateState (state : String) (w : World τ) : World τ :=
  if w.d.state = state then w
  else emit (.stateChanged state) { w with d := { w.d with state := state } }

/-- The function `postSimple`: one `LSCall`; returns its verdict and the error it filled in. -/
def postSimple (T : Transport τ) (handle : Option LSHandle) (method : String)
    (payload : QJsonObject) (w : World τ) : (Bool × LSError) × World τ :=
  let r := T.LSCall handle (endpoint method) payload w.bus
  ((r.1.ok, if r.1.ok then LSErrorInit else ⟨r.1.message⟩),
   { w with bus := r.2, trace := w.trace ++ [Obs.rpc (.call handle (endpoint method) payload)] })

/-- The reply callback of the register call: stores the session id of the reply. -/
def registerCallback (P : Platform) (payload : String) (w : World τ) : World τ :=
  { w with d := { w.d with
      sessionId := ((P.fromJson payload).object.value "sessionId").toString } }

/-- The reply callback of the status call: stores the payload. -/
def statusCallback (payload : String) (w : World τ) : World τ :=
  { w with d := { w.d with lastStatus := payload } }

/-- The function `ensurePlayer`. -/
def ensurePlayer (T : Transport τ) (P : Platform) (w : World τ) : Bool × World τ :=
  if w.d.sessionHandle.isSome ∧ w.d.sessionId ≠ "" then (true, w)
  else
    let r := T.LSRegister w.bus
    let w1 : World τ := { w with bus := r.2, trace := w.trace ++ [Obs.rpc .register] }
    match r.1.handle with
    | none => (false, emit (.errorOccurred r.1.message) w1)
    | some h =>
      let w2 : World τ := { w1 with d := { w1.d with sessionHandle := some h } }
      let payload : QJsonObject := [("subscribe", .bool true)]
      let c := T.LSCallOneReply (some h) (endpoint kRegister) payload w2.bus
      let w3 : World τ :=
        { w2 with bus := c.2
                  trace := w2.trace ++ [Obs.rpc (.callOneReply (some h) (endpoint kRegister) payload)] }
      let w4 : World τ :=
        match c.1.reply with
        | some p => registerCallback P p w3
        | none => w3
      if c.1.ok = false then (false, emit (.errorOccurred c.1.message) w4)
      else if w4.d.sessionId = "" then
        (false, emit (.errorOccurred "Failed to obtain AVPlay session") w4)
      else (true, w4)

/-- The request object of the load command. -/
def loadPayload (sessionId url mimeType : String) (live : Bool) : QJsonObject :=
  [("sessionId", .string sessionId),
   ("payload", .object
     [("source", .object
        [("type", .string (if live then "live" else "media")),
         ("url", .string url),
         ("mime", .string mimeType)]),
      ("options", .object
        [("transport", .string "hls"),
         ("fullscreen", .bool true)])])]

/-- The method `load`. -/
def load (T : Transport τ) (P : Platform) (url mimeType : String) (live : Bool)
    (w : World τ) : World τ :=
  let w1 := (ensurePlayer T P w).2
  let r := postSimple T w1.d.sessionHandle kLoad (loadPayload w1.d.sessionId url mimeType live) w1
  if r.1.1 = false then emit (.errorOccurred r.1.2.message) r.2
  else
    let w3 := updateState "loaded" r.2
    { w3 with d := { w3.d with pollTimer := { w3.d.pollTimer with active := true } } }

/-- The method `play`. -/
def play (T : Transport τ) (P : Platform) (w : World τ) : World τ :=
  let e := ensurePlayer T P w
  if e.1 = false then e.2
  else
    let r := postSimple T e.2.d.sessionHandle kPlay [("sessionId", .string e.2.d.sessionId)] e.2
    if r.1.1 = false then emit (.errorOccurred r.1.2.message) r.2
    else updateState "playing" r.2

/-- The method `pause`. -/
def pause (T : Transport τ) (w : World τ) : World τ :=
  match w.d.sessionHandle with
  | none => w
  | some h =>
    let r := postSimple T (some h) kPause [("sessionId", .string w.d.sessionId)] w
    if r.1.1 = false then emit (.errorOccurred r.1.2.message) r.2
    else updateState "paused" r.2

/-- The method `seek`; `seconds * 1000` is computed in `qint64`, and the number
node of the request holds that integer. -/
def seek (T : Transport τ) (seconds : Int) (w : World τ) : World τ :=
  match w.d.sessionHandle with
  | none => w
  | some h =>
    let payload : QJsonObject :=
      [("sessionId", .string w.d.sessionId),
       ("target", .double (wrapInt64 (seconds * 1000)))]
    let r := postSimple T (some h) kSeek payload w
    if r.1.1 = false then emit (.errorOccurred r.1.2.message) r.2
    else r.2

/-- The method `stop`. -/
def stop (T : Transport τ) (w : World τ) : World τ :=
  match w.d.sessionHandle with
  | none => w
  | some h =>
    let r := postSimple T (some h) kStop [("sessionId", .string w.d.sessionId)] w
    let w1 : World τ :=
      { r.2 with d := { r.2.d with pollTimer := { r.2.d.pollTimer with active := false } } }
    updateState "stopped" w1

/-- The slot `handleTick`, run at each timeout of the poll timer. -/
def handleTick (T : Transport τ) (P : Platform) (w : World τ) : World τ :=
  match w.d.sessionHandle with
  | none => w
  | some h =>
    let payload : QJsonObject := [("sessionId", .string w.d.sessionId)]
    let c := T.LSCallOneReply (some h) (endpoint kStateStatus) payload w.bus
    let w1 : World τ :=
      { w with bus := c.2
               trace := w.trace ++ [Obs.rpc (.callOneReply (some h) (endpoint kStateStatus) payload)]
               d := { w.d with statusToken := c.1.token.getD w.d.statusToken } }
    let w2 : World τ :=
      match c.1.reply with
      | some p => statusCallback p w1
      | none => w1
    if c.1.ok = false then w2
    else if w2.d.lastStatus ≠ "" then
      let obj := (P.fromJson w2.d.lastStatus).object
      let state := (obj.value "state").toString
      let w3 := if state ≠ "" then updateState state w2 else w2
      let position := toQint64 P (fdiv (obj.value kCurrentTime).toDouble 1000)
      let w4 := emit (.progressChanged position) w3
      let duration := toQint64 P (fdiv (obj.value kDuration).toDouble 1000)
      let w5 := emit (.durationChanged duration) w4
      { w5 with d := { w5.d with lastStatus := "" } }
    else w2

/-- The method `teardown`. -/
def teardown (T : Transport τ) (w : World τ) : World τ :=
  let w1 := stop T w
  let w2 : World τ :=
    match w1.d.sessionHandle with
    | some h =>
      { w1 with bus := T.LSUnregister h w1.bus
                trace := w1.trace ++ [Obs.rpc (.unregister h)]
                d := { w1.d with sessionHandle := none } }
    | none => w1
  { w2 with d := { w2.d with sessionId := "" } }

/-! ## Runs of the controller -/

/-- What can happen to a controller: a call of a public method, a timeout of
the poll timer, or a reply callback run later from the event loop. -/
inductive Op where
  | load (url mimeType : String) (live : Bool)
  | play
  | pause
  | seek (seconds : Int)
  | stop
  | teardown
  | tick
  | registerReply (payload : String)
  | statusReply (payload : String)

/-- One step; the timer delivers timeouts only while it is running. -/
def exec (T : Transport τ) (P : Platform) (o : Op) (w : World τ) : World τ :=
  match o with
  | .load url mimeType live => load T P url mimeType live w
  | .play => play T P w
  | .pause => pause T w
  | .seek seconds => seek T seconds w
  | .stop => stop T w
  | .teardown => teardown T w
  | .tick => if w.d.pollTimer.active then handleTick T P w else w
  | .registerReply payload => registerCallback P payload w
  | .statusReply payload => statusCallback payload w

def run (T : Transport τ) (P : Platform) (ops : List Op) (w : World τ) : World τ :=
  ops.foldl (fun acc o => exec T P o acc) w

/-- States the controller can be in: those some run from a new controller ends in. -/
def Reachable (T : Transport τ) (P : Platform) (w : World τ) : Prop :=
  ∃ bus ops, w = run T P ops (init bus)

/-- The commands that need an existing session. -/
def Op.needsSession : Op → Bool
  | .pause => true
  | .seek _ => true
  | .stop => true
  | _ => false

/-! ## Reading a trace -/

def Obs.isRpc : Obs → Bool
  | .rpc _ => true
  | _ => false

def Obs.isSignal : Obs → Bool
  | .signal _ => true
  | _ => false

def Obs.isError : Obs → Bool
  | .signal (.errorOccurred _) => true
  | _ => false

def Obs.isStateChanged : Obs → Bool
  | .signal (.stateChanged _) => true
  | _ => false

def Obs.isProgressChanged : Obs → Bool
  | .signal (.progressChanged _) => true
  | _ => false

def Obs.isDurationChanged : Obs → Bool
  | .signal (.durationChanged _) => true
  | _ => false

/-- The signals of a trace, in order. -/
def signals : List Obs → List Signal
  | [] => []
  | .signal s :: t => s :: signals t
  | .rpc _ :: t => signals t

/-- The transport calls of a trace, in order. -/
def rpcs : List Obs → List LunaCall
  | [] => []
  | .rpc c :: t => c :: rpcs t
  | .signal _ :: t => rpcs t

/-- The arguments of the `stateChanged` signals of a trace, in order. -/
def stateChanges : List Obs → List String
  | [] => []
  | .signal (.stateChanged s) :: t => s :: stateChanges t
  | .signal (.progressChanged _) :: t => stateChanges t
  | .signal (.durationChanged _) :: t => stateChanges t
  | .signal (.errorOccurred _) :: t => stateChanges t
  | .rpc _ :: t => stateChanges t

/-- Whether an observation is an `LSCall` to the endpoint of `method`. -/
def Obs.isCallTo (method : String) : Obs → Bool
  | .rpc (.call _ uri _) => decide (uri = endpoint method)
  | _ => false

/-- The property of C17 for one world: no two consecutive `stateChanged` signals of
the trace carry the same string, and the stored state is the argument of the
last one, or the initial (empty) state when there is none. -/
def StateInv (w : World τ) : Prop :=
  List.Chain' (fun a b => a ≠ b) (stateChanges w.trace) ∧
    (stateChanges w.trace).getLast?.getD "" = w.d.state

/-- The operations of the controller proper: the public methods and the timer
tick.  The reply callbacks run later from the event loop are not among them. -/
def Op.isOperation : Op → Bool
  | .registerReply _ => false
  | .statusReply _ => false
  | _ => true

/-- The property of C21 for one world: a running poll timer, and a non-empty
session id, each come with a connection handle. -/
def SessionInv (w : World τ) : Prop :=
  (w.d.pollTimer.active = true → w.d.sessionHandle.isSome = true) ∧
    (w.d.sessionId ≠ "" → w.d.sessionHandle.isSome = true)

/-! ## Concrete environments used to exercise the model -/

/-- A transport that answers from three queues, one per kind of call; an
exhausted queue refuses the call. -/
structure Script where
  registers : List LSRegisterResult
  calls : List LSCallResult
  replies : List LSCallOneReplyResult

def scripted : Transport Script where
  LSRegister s :=
    match s.registers with
    | [] => (⟨none, "bus unavailable"⟩, s)
    | r :: rs => (r, { s with registers := rs })
  LSCall _ _ _ s :=
    match s.calls with
    | [] => (⟨false, "call refused"⟩, s)
    | r :: rs => (r, { s with calls := rs })
  LSCallOneReply _ _ _ s :=
    match s.replies with
    | [] => (⟨false, "call refused", none, none⟩, s)
    | r :: rs => (r, { s with replies := rs })
  LSUnregister _ s := s

/-- A JSON reader defined on the few texts the examples use. -/
def sampleFromJson (text : String) : QJsonDocument :=
  if text = "SESSION" then .ofObject [("sessionId", .string "sid-1")]
  else if text = "EMPTY" then .ofObject []
  else if text = "PLAYING" then
    .ofObject [("state", .string "playing"), ("currentTime", .double 5000),
               ("duration", .double 120000)]
  else if text = "EDGE" then
    .ofObject [("currentTime", .double 1999), ("duration", .double (-1999))]
  else if text = "HUGE" then
    .ofObject [("currentTime", .double 9007199254741999), ("duration", .double 999)]
  else .null

def samplePlatform : Platform where
  fromJson := sampleFromJson
  outOfRange _ := 0

/-- The connection opens, the register call is answered with a session id, the
load call is accepted, and the first status reply reports "playing" at
5000 ms of 120000 ms. -/
def happyScript : Script where
  registers := [⟨some 7, ""⟩]
  calls := [⟨true, ""⟩]
  replies := [⟨true, "", none, some "SESSION"⟩, ⟨true, "", some 1, some "PLAYING"⟩]

/-- No connection can be opened and every call is refused. -/
def deadScript : Script where
  registers := []
  calls := []
  replies := []

/-- The connection opens, the register reply carries no session id, and the
service accepts whatever call follows. -/
def noSessionIdScript : Script where
  registers := [⟨some 7, ""⟩]
  calls := [⟨true, ""⟩]
  replies := [⟨true, "", none, some "EMPTY"⟩]

/-- The state after `play()` on a new controller whose register reply carried
no session id: the connection handle is kept, the session id is empty. -/
def afterFailedRegistration : World Script :=
  run scripted samplePlatform [.play] (init noSessionIdScript)

/-- The session is registered and the load accepted; the first status call is
accepted but no reply is delivered before it returns. -/
def pendingReplyScript : Script where
  registers := [⟨some 7, ""⟩]
  calls := [⟨true, ""⟩]
  replies := [⟨true, "", none, some "SESSION"⟩, ⟨true, "", some 1, none⟩]

/-- As `pendingReplyScript`, but the status reply arrives with an empty payload. -/
def emptyReplyScript : Script where
  registers := [⟨some 7, ""⟩]
  calls := [⟨true, ""⟩]
  replies := [⟨true, "", none, some "SESSION"⟩, ⟨true, "", some 1, some ""⟩]

/-- The session is registered, the load accepted, and the first status reply is
the text "HUGE". -/
def hugeScript : Script where
  registers := [⟨some 7, ""⟩]
  calls := [⟨true, ""⟩]
  replies := [⟨true, "", none, some "SESSION"⟩, ⟨true, "", some 1, some "HUGE"⟩]

/-- As `hugeScript`, with the status text "EDGE". -/
def edgeScript : Script where
  registers := [⟨some 7, ""⟩]
  calls := [⟨true, ""⟩]
  replies := [⟨true, "", none, some "SESSION"⟩, ⟨true, "", some 1, some "EDGE"⟩]

/-- A session is registered; the next command is accepted, the one after it is
rejected with "busy". -/
def sessionScript : Script where
  registers := [⟨some 7, ""⟩]
  calls := [⟨true, ""⟩, ⟨false, "busy"⟩]
  replies := [⟨true, "", none, some "SESSION"⟩]

/-- The world after `play()` under `sessionScript`: a session with id "sid-1",
state "playing"; the next command will be rejected. -/
def withSession : World Script :=
  play scripted samplePlatform (init sessionScript)

/-- No connection can be opened, yet the transport accepts a call made on the
absent handle. -/
def nullHandleScript : Script where
  registers := []
  calls := [⟨true, ""⟩]
  replies := []

/-- The world after `load` under `nullHandleScript`: no connection handle, and
the poll timer running. -/
def pollingWithoutHandle : World Script :=
  load scripted samplePlatform "http://x/a.m3u8" "application/x-mpegurl" false
    (init nullHandleScript)

/-- The world after `load` under `pendingReplyScript`: a session with id "sid-1",
state "loaded", the poll timer running; the next status call is accepted. -/
def polling : World Script :=
  load scripted samplePlatform "http://x/a.m3u8" "application/x-mpegurl" false
    (init pendingReplyScript)

/-- The world after `load` under `sessionScript`: a session with id "sid-1",
state "loaded", the poll timer running; the next command is rejected with
"busy" and no status call is accepted. -/
def pollingRefused : World Script :=
  load scripted samplePlatform "http://x/a.m3u8" "application/x-mpegurl" false
    (init sessionScript)

/-- As `pendingReplyScript`, but the status reply is a text that is no JSON. -/
def garbageReplyScript : Script where
  registers := [⟨some 7, ""⟩]
  calls := [⟨true, ""⟩]
  replies := [⟨true, "", none, some "SESSION"⟩, ⟨true, "", some 1, some "GARBAGE"⟩]

/-- A session is registered, three commands are accepted, and two status calls
are accepted without a reply being delivered before they return. -/
def staleScript : Script where
  registers := [⟨some 7, ""⟩]
  calls := [⟨true, ""⟩, ⟨true, ""⟩, ⟨true, ""⟩]
  replies := [⟨true, "", none, some "SESSION"⟩, ⟨true, "", some 1, none⟩,
              ⟨true, "", some 2, none⟩]

/-- A first media is loaded and polled once; the reply to that poll ("playing",
5000 ms of 120000 ms) arrives afterwards; then `stop()`, and a second media
is loaded. -/
def afterReload : World Script :=
  run scripted samplePlatform
    [.load "http://x/a.m3u8" "application/x-mpegurl" false, .tick, .statusReply "PLAYING",
     .stop, .load "http://x/b.m3u8" "application/x-mpegurl" false]
    (init staleScript)

/-- The scripted transport, except that a command sent on an absent connection
handle is rejected. -/
def strictScripted : Transport Script where
  LSRegister := scripted.LSRegister
  LSCall handle uri payload s :=
    match handle with
    | none => (⟨false, "invalid handle"⟩, s)
    | some h => scripted.LSCall (some h) uri payload s
  LSCallOneReply := scripted.LSCallOneReply
  LSUnregister := scripted.LSUnregister

/-! ## Basic facts -/

theorem updateState_state (state : String) (w : World τ) :
    (updateState state w).d.state = state := by
  unfold updateState
  split
  · assumption
  · rfl

theorem updateState_timer (state : String) (w : World τ) :
    (updateState state w).d.pollTimer = w.d.pollTimer := by
  unfold updateState
  split <;> rfl

theorem postSimple_fst (T : Transport τ) (h : Option LSHandle) (m : String)
    (p : QJsonObject) (w : World τ) :
    (postSimple T h m p w).1.1 = (T.LSCall h (endpoint m) p w.bus).1.ok := rfl

theorem postSimple_d (T : Transport τ) (h : Option LSHandle) (m : String)
    (p : QJsonObject) (w : World τ) :
    (postSimple T h m p w).2.d = w.d := rfl

theorem postSimple_trace (T : Transport τ) (h : Option LSHandle) (m : String)
    (p : QJsonObject) (w : World τ) :
    (postSimple T h m p w).2.trace = w.trace ++ [Obs.rpc (.call h (endpoint m) p)] := rfl

/-! ## binary64 facts -/

theorem roundHalfEven_intCast (k : Int) : roundHalfEven (k : ℚ) = k := by
  simp [roundHalfEven]

theorem floor_le_roundHalfEven (y : ℚ) : ⌊y⌋ ≤ roundHalfEven y := by
  unfold roundHalfEven
  simp only
  split_ifs <;> omega

theorem roundHalfEven_le (y : ℚ) : (roundHalfEven y : ℚ) ≤ y + 1 / 2 := by
  unfold roundHalfEven
  simp only
  have h1 : (⌊y⌋ : ℚ) ≤ y := Int.floor_le y
  split_ifs with h1 h2 h3
  · linarith
  · push_cast; linarith
  · linarith
  · push_cast; linarith


theorem truncate_of_nonneg (x : ℚ) (hx : 0 ≤ x) : truncate x = ⌊x⌋ := by
  unfold truncate
  rw [Rat.floor_def, Int.tdiv_eq_ediv (Rat.num_nonneg.mpr hx) (by positivity)]

theorem truncate_neg (x : ℚ) : truncate (-x) = -truncate x := by
  unfold truncate
  simp [Int.neg_tdiv]

theorem roundPos_zero : roundPos 0 = 0 := by
  simp [roundPos, roundHalfEven]

theorem binade_le_of_lt (x : ℚ) (e : ℤ) (he : -1022 < e) (hx : 0 < x) (hlt : x < 2 ^ e) :
    binade x < e := by
  unfold binade
  have h := (Int.lt_zpow_iff_log_lt (R := ℚ) (b := 2) (by norm_num) (x := e) hx).mp
    (by exact_mod_cast hlt)
  exact max_lt h he

theorem ulp_eq_inv (x : ℚ) (hb : binade x ≤ 52) :
    ulp x = (((2 ^ (52 - binade x).toNat : ℕ) : ℚ))⁻¹ := by
  unfold ulp
  have h : binade x - 52 = -(((52 - binade x).toNat : ℤ)) := by
    rw [Int.toNat_of_nonneg (by omega)]; ring
  rw [h, zpow_neg, zpow_natCast]
  push_cast
  rfl

theorem truncate_roundPos_div (m : ℕ) (hm : m ≤ 2 ^ 53) :
    truncate (roundPos ((m : ℚ) / 1000)) = ((m / 1000 : ℕ) : ℤ) := by
  rcases Nat.eq_zero_or_pos m with h0 | hpos
  · subst h0
    simp [roundPos_zero, truncate]
  · have hx : (0 : ℚ) < (m : ℚ) / 1000 := by positivity
    have hlt : (m : ℚ) / 1000 < 2 ^ (44 : ℤ) := by
      have : (m : ℚ) ≤ 2 ^ 53 := by exact_mod_cast hm
      rw [div_lt_iff₀ (by norm_num)]
      norm_num at this ⊢
      linarith
    have hb : binade ((m : ℚ) / 1000) < 44 := binade_le_of_lt _ 44 (by norm_num) hx hlt
    have hu := ulp_eq_inv ((m : ℚ) / 1000) (by omega)
    obtain ⟨N, hN⟩ : ∃ N : ℕ, (52 - binade ((m : ℚ) / 1000)).toNat = N := ⟨_, rfl⟩
    have hN9 : 9 ≤ N := by omega
    rw [hN] at hu
    have hM : 512 ≤ 2 ^ N := by
      calc 512 = 2 ^ 9 := by norm_num
        _ ≤ 2 ^ N := Nat.pow_le_pow_right (by norm_num) hN9
    generalize 2 ^ N = M at hu hM
    have hMq : (512 : ℚ) ≤ (M : ℚ) := by exact_mod_cast hM
    have hMpos : (0 : ℚ) < (M : ℚ) := by linarith
    unfold roundPos
    rw [hu, div_inv_eq_mul]
    set k := roundHalfEven ((m : ℚ) / 1000 * M) with hk
    have hq1 : (m / 1000) * 1000 ≤ m := Nat.div_mul_le_self m 1000
    have hq2 : m < (m / 1000 + 1) * 1000 := by
      have := Nat.lt_div_mul_add (a := m) (b := 1000) (by norm_num); omega
    set q := m / 1000 with hq
    have hq1' : (q : ℚ) * 1000 ≤ m := by exact_mod_cast hq1
    have hq2' : (m : ℚ) + 1 ≤ (q + 1) * 1000 := by exact_mod_cast hq2
    have hlow : ((q * M : ℕ) : ℤ) ≤ k := by
      refine le_trans ?_ (floor_le_roundHalfEven _)
      rw [Int.le_floor]
      push_cast
      have : (q : ℚ) ≤ (m : ℚ) / 1000 := by
        rw [le_div_iff₀ (by norm_num)]; exact hq1'
      exact mul_le_mul_of_nonneg_right this hMpos.le
    have hupp : k < (((q + 1) * M : ℕ) : ℤ) := by
      have h1 := roundHalfEven_le ((m : ℚ) / 1000 * M)
      rw [← hk] at h1
      have h2 : (m : ℚ) / 1000 ≤ (q : ℚ) + 999 / 1000 := by
        rw [div_le_iff₀ (by norm_num)]; linarith
      have h3 : (m : ℚ) / 1000 * M ≤ ((q : ℚ) + 999 / 1000) * M :=
        mul_le_mul_of_nonneg_right h2 hMpos.le
      have h4 : (k : ℚ) < ((q : ℚ) + 1) * M := by nlinarith
      exact_mod_cast h4
    have hk0 : 0 ≤ k := le_trans (by positivity) hlow
    have hnn : (0 : ℚ) ≤ (k : ℚ) * (M : ℚ)⁻¹ := by
      have : (0 : ℚ) ≤ (k : ℚ) := by exact_mod_cast hk0
      positivity
    rw [truncate_of_nonneg _ hnn, ← div_eq_mul_inv, Rat.floor_intCast_div_natCast]
    have hMz : (0 : ℤ) < (M : ℤ) := by exact_mod_cast (by omega : 0 < M)
    apply le_antisymm
    · have : k / (M : ℤ) < (q : ℤ) + 1 := by
        rw [Int.ediv_lt_iff_lt_mul hMz]
        push_cast at hupp
        linarith
      omega
    · rw [Int.le_ediv_iff_mul_le hMz]
      push_cast at hlow
      linarith

theorem binade_natCast (m : ℕ) : binade (m : ℚ) = Nat.log 2 m := by
  unfold binade
  have h : Int.log 2 (m : ℚ) = Nat.log 2 m := by exact_mod_cast Int.log_natCast (R := ℚ) 2 m
  rw [h]
  omega

theorem roundPos_natCast (m : ℕ) (hm : m ≤ 2 ^ 53) : roundPos (m : ℚ) = m := by
  rcases Nat.eq_zero_or_pos m with h0 | hpos
  · subst h0
    simp [roundPos_zero]
  · have hb := binade_natCast m
    have hlog : Nat.log 2 m < 54 :=
      Nat.log_lt_of_lt_pow (by omega) (by omega)
    rcases Nat.lt_or_ge (Nat.log 2 m) 53 with h52 | h53
    · have hu := ulp_eq_inv (m : ℚ) (by omega)
      unfold roundPos
      rw [hu, div_inv_eq_mul]
      have hc : (m : ℚ) * ((2 ^ (52 - binade (m : ℚ)).toNat : ℕ) : ℚ)
          = (((m * 2 ^ (52 - binade (m : ℚ)).toNat : ℕ) : ℤ) : ℚ) := by push_cast; ring
      rw [hc, roundHalfEven_intCast]
      push_cast
      field_simp
    · have he : Nat.log 2 m = 53 := by omega
      have hm2 : 2 ^ 53 ≤ m := by
        have := Nat.pow_log_le_self 2 (by omega : m ≠ 0)
        rwa [he] at this
      have hmeq : m = 2 ^ 53 := le_antisymm hm hm2
      unfold roundPos ulp
      rw [hb, he, hmeq]
      have hc : ((2 ^ 53 : ℕ) : ℚ) / 2 ^ (((53 : ℕ) : ℤ) - 52) = (((2 ^ 52 : ℤ)) : ℚ) := by
        norm_num
      rw [hc, roundHalfEven_intCast]
      norm_num

theorem roundToDouble_natCast (m : ℕ) (hm : m ≤ 2 ^ 53) : roundToDouble (m : ℚ) = m := by
  unfold roundToDouble
  have h : ¬ ((m : ℚ) < 0) := not_lt.mpr (by positivity)
  rw [if_neg h, roundPos_natCast m hm]

theorem roundToDouble_neg_natCast (m : ℕ) (hm : m ≤ 2 ^ 53) :
    roundToDouble (-(m : ℚ)) = -(m : ℚ) := by
  rcases Nat.eq_zero_or_pos m with h0 | hpos
  · subst h0; simp [roundToDouble, roundPos_zero]
  · unfold roundToDouble
    have : -(m : ℚ) < 0 := by
      have : (0 : ℚ) < m := by exact_mod_cast hpos
      linarith
    rw [if_pos this, neg_neg, roundPos_natCast m hm]

/-- The conversion chain of the poll on an integer number of milliseconds. -/
theorem truncate_fdiv_roundToDouble (m : ℤ) (hm : |m| ≤ 2 ^ 53) :
    truncate (fdiv (roundToDouble (m : ℚ)) 1000) = m.tdiv 1000 := by
  rcases le_or_lt 0 m with hnn | hneg
  · obtain ⟨n, rfl⟩ := Int.eq_ofNat_of_zero_le hnn
    have hn : n ≤ 2 ^ 53 := by
      rw [abs_of_nonneg hnn] at hm; exact_mod_cast hm
    have h1 : roundToDouble (((n : ℤ) : ℚ)) = n := by
      simpa using roundToDouble_natCast n hn
    rw [h1]
    unfold fdiv roundToDouble
    have h : ¬ ((n : ℚ) / 1000 < 0) := not_lt.mpr (by positivity)
    rw [if_neg h, truncate_roundPos_div n hn]
    simp [Int.tdiv_eq_ediv]
  · obtain ⟨n, rfl⟩ : ∃ n : ℕ, m = -(n : ℤ) := ⟨m.natAbs, by omega⟩
    have hn : n ≤ 2 ^ 53 := by
      rw [abs_neg, abs_of_nonneg (by positivity)] at hm; exact_mod_cast hm
    have hpos : 0 < n := by omega
    have h1 : roundToDouble (((-(n : ℤ) : ℤ)) : ℚ) = -(n : ℚ) := by
      simpa using roundToDouble_neg_natCast n hn
    rw [h1]
    unfold fdiv roundToDouble
    have hlt : -(n : ℚ) / 1000 < 0 := by
      have : (0 : ℚ) < n := by exact_mod_cast hpos
      linarith
    rw [if_pos hlt, truncate_neg]
    have : -(-(n : ℚ) / 1000) = (n : ℚ) / 1000 := by ring
    rw [this, truncate_roundPos_div n hn, Int.neg_tdiv]
    simp [Int.tdiv_eq_ediv]

theorem roundToDouble_above_two_pow_53 :
    roundToDouble 9007199254741999 = 9007199254742000 := by
  have hb : binade (9007199254741999 : ℚ) = 53 := by
    have h := binade_natCast 9007199254741999
    rw [Nat.log_eq_of_pow_le_of_lt_pow (m := 53) (by norm_num) (by norm_num)] at h
    exact_mod_cast h
  have hf : ⌊(9007199254741999 : ℚ) / 2⌋ = 4503599627370999 := by
    rw [Int.floor_eq_iff]; constructor <;> norm_num
  unfold roundToDouble roundPos ulp
  rw [if_neg (by norm_num), hb]
  have h2 : (2 : ℚ) ^ ((53 : ℤ) - 52) = 2 := by norm_num
  rw [h2]
  unfold roundHalfEven
  simp only [hf]
  norm_num

theorem truncate_fdiv_above_two_pow_53 :
    truncate (fdiv (roundToDouble 9007199254741999) 1000) = 9007199254742 := by
  rw [roundToDouble_above_two_pow_53]
  have h : (9007199254742000 : ℚ) / 1000 = ((9007199254742 : ℕ) : ℚ) := by norm_num
  unfold fdiv
  rw [h, roundToDouble_natCast _ (by norm_num)]
  simp [truncate]

/-- Within 2^53 the poll's conversion of a reported integer is the truncated quotient. -/
theorem toQint64_fdiv_toDouble (P : Platform) (m : ℤ) (hm : |m| ≤ 2 ^ 53) :
    toQint64 P (fdiv (QJsonValue.double m).toDouble 1000) = m.tdiv 1000 := by
  unfold toQint64 QJsonValue.toDouble
  simp only [truncate_fdiv_roundToDouble m hm]
  have h1 : (m.tdiv 1000).natAbs = m.natAbs / 1000 := Int.natAbs_tdiv m 1000
  have h2 : m.natAbs ≤ 2 ^ 53 := by
    have : (m.natAbs : ℤ) ≤ 2 ^ 53 := by rw [Int.natCast_natAbs]; exact hm
    exact_mod_cast this
  have h3 : (m.tdiv 1000).natAbs ≤ 2 ^ 53 := by
    rw [h1]; exact le_trans (Nat.div_le_self _ _) h2
  rw [if_pos]
  constructor <;> omega

/-! ## C1: a successful load -/

/-- C1: whenever `load` succeeds, that is `ensurePlayer` reports a session and
the transport accepts the load call, the playback state afterwards is
"loaded" and the poll timer is running. -/
theorem load_success_loaded_and_polling (T : Transport τ) (P : Platform)
    (url mimeType : String) (live : Bool) (w : World τ)
    (_hsession : (ensurePlayer T P w).1 = true)
    (hcall : (T.LSCall (ensurePlayer T P w).2.d.sessionHandle (endpoint kLoad)
        (loadPayload (ensurePlayer T P w).2.d.sessionId url mimeType live)
        (ensurePlayer T P w).2.bus).1.ok = true) :
    (load T P url mimeType live w).d.state = "loaded" ∧
      (load T P url mimeType live w).d.pollTimer.active = true := by
  unfold load
  simp only [postSimple_fst, hcall]
  simp [updateState_state]

theorem load_success_loaded_and_polling_witness :
    (load scripted samplePlatform "http://x/a.m3u8" "application/x-mpegurl" false
        (init happyScript)).d.state = "loaded" ∧
      (load scripted samplePlatform "http://x/a.m3u8" "application/x-mpegurl" false
        (init happyScript)).d.pollTimer.active = true :=
  load_success_loaded_and_polling scripted samplePlatform "http://x/a.m3u8"
    "application/x-mpegurl" false (init happyScript) (by decide) (by decide)

/-! ## C2, C3: load after a failed session registration -/

/-- C2 at a failing input: on a new controller, when the connection cannot be
opened and the load call is rejected, `load` emits two `errorOccurred`
signals (one from `ensurePlayer`, one for the rejected call), not one; the
state stays as it was and the timer is not started. -/
theorem load_rejected_after_failed_registration_two_errors :
    signals (load scripted samplePlatform "http://x/a.m3u8" "application/x-mpegurl" false
        (init deadScript)).trace
      = [.errorOccurred "bus unavailable", .errorOccurred "call refused"] ∧
    (load scripted samplePlatform "http://x/a.m3u8" "application/x-mpegurl" false
        (init deadScript)).d.state = (init deadScript).d.state ∧
    (load scripted samplePlatform "http://x/a.m3u8" "application/x-mpegurl" false
        (init deadScript)).d.pollTimer.active = false := by
  decide

/-- C3 at a failing input: on a new controller whose registration fails because
the reply carries no session id, `ensurePlayer` reports failure, yet `load`
goes on, sends the load call, and when the transport accepts it the state
becomes "loaded" and the timer is started. -/
theorem load_after_failed_registration_still_loads :
    (ensurePlayer scripted samplePlatform (init noSessionIdScript)).1 = false ∧
    signals (load scripted samplePlatform "http://x/a.m3u8" "application/x-mpegurl" false
        (init noSessionIdScript)).trace
      = [.errorOccurred "Failed to obtain AVPlay session", .stateChanged "loaded"] ∧
    (init noSessionIdScript).d.state = "" ∧
    (load scripted samplePlatform "http://x/a.m3u8" "application/x-mpegurl" false
        (init noSessionIdScript)).d.state = "loaded" ∧
    (load scripted samplePlatform "http://x/a.m3u8" "application/x-mpegurl" false
        (init noSessionIdScript)).d.pollTimer.active = true := by
  decide

/-! ## C4: what gates pause, seek, stop and the poll -/

/-- C4 as stated fails: in a reachable state with an empty session id, `pause`
still sends its call, here accepted by the service (and `seek`, `stop` and the
poll send theirs too). -/
theorem session_commands_sent_with_empty_session_id :
    Reachable scripted samplePlatform afterFailedRegistration ∧
    afterFailedRegistration.d.sessionId = "" ∧
    (pause scripted afterFailedRegistration).trace =
      afterFailedRegistration.trace ++
        [Obs.rpc (.call (some 7) "luna://com.webos.media/pause" [("sessionId", .string "")]),
         Obs.signal (.stateChanged "paused")] ∧
    (rpcs (seek scripted 30 afterFailedRegistration).trace).length =
      (rpcs afterFailedRegistration.trace).length + 1 ∧
    (rpcs (stop scripted afterFailedRegistration).trace).length =
      (rpcs afterFailedRegistration.trace).length + 1 ∧
    (rpcs (handleTick scripted samplePlatform afterFailedRegistration).trace).length =
      (rpcs afterFailedRegistration.trace).length + 1 := by
  refine ⟨⟨noSessionIdScript, [.play], rfl⟩, by decide, ?_, by decide, by decide, by decide⟩
  simp [afterFailedRegistration, run, exec, play, ensurePlayer, init, scripted,
    noSessionIdScript, samplePlatform, sampleFromJson, registerCallback, emit, pause,
    postSimple, endpoint, kServiceUri, kPause, kRegister, QJsonDocument.object,
    QJsonObject.value, QJsonValue.toString, updateState]

/-- C4, amended: `pause`, `seek`, `stop` and the poll are gated on the connection
handle.  Without a handle each of them returns at once: nothing is sent,
no signal is emitted, nothing changes. -/
theorem session_commands_gated_on_handle (T : Transport τ) (P : Platform)
    (seconds : Int) (w : World τ) (h : w.d.sessionHandle = none) :
    pause T w = w ∧ seek T seconds w = w ∧ stop T w = w ∧ handleTick T P w = w := by
  simp [pause, seek, stop, handleTick, h]

theorem session_commands_gated_on_handle_witness :
    (init deadScript).d.sessionHandle = none ∧
    pause scripted (init deadScript) = init deadScript ∧
    seek scripted 30 (init deadScript) = init deadScript ∧
    stop scripted (init deadScript) = init deadScript ∧
    handleTick scripted samplePlatform (init deadScript) = init deadScript :=
  ⟨rfl, session_commands_gated_on_handle scripted samplePlatform 30 (init deadScript) rfl⟩

/-! ## C5: commands before any session -/

theorem exec_needsSession_noop (T : Transport τ) (P : Platform) (o : Op) (w : World τ)
    (ho : o.needsSession = true) (h : w.d.sessionHandle = none) : exec T P o w = w := by
  cases o <;> simp [Op.needsSession] at ho <;> simp [exec, pause, seek, stop, h]

theorem run_needsSession_noop (T : Transport τ) (P : Platform) (ops : List Op) (w : World τ)
    (hops : ∀ o ∈ ops, o.needsSession = true) (h : w.d.sessionHandle = none) :
    run T P ops w = w := by
  induction ops with
  | nil => rfl
  | cons o rest ih =>
    have ho : exec T P o w = w := exec_needsSession_noop T P o w (hops o (by simp)) h
    have hrest : ∀ o ∈ rest, o.needsSession = true := fun o ho => hops o (by simp [ho])
    simpa [run, ho] using ih hrest

/-- C5: from a newly constructed controller, a sequence made only of `pause()`,
`seek(n)` and `stop()` calls ends in the very same world: every field of the
controller is as constructed, the transport was never called, and the trace
is still empty (no call, no signal). -/
theorem commands_before_session_are_noops (T : Transport τ) (P : Platform) (bus : τ)
    (ops : List Op) (hops : ∀ o ∈ ops, o.needsSession = true) :
    run T P ops (init bus) = init bus ∧ (run T P ops (init bus)).trace = [] := by
  have h := run_needsSession_noop T P ops (init bus) hops rfl
  exact ⟨h, by rw [h]; rfl⟩

theorem commands_before_session_are_noops_witness :
    (∀ o ∈ [Op.pause, Op.seek 30, Op.stop, Op.seek (-5), Op.pause], o.needsSession = true) ∧
    run scripted samplePlatform [Op.pause, Op.seek 30, Op.stop, Op.seek (-5), Op.pause]
        (init happyScript) = init happyScript ∧
    (run scripted samplePlatform [Op.pause, Op.seek 30, Op.stop, Op.seek (-5), Op.pause]
        (init happyScript)).trace = [] :=
  ⟨by decide, commands_before_session_are_noops scripted samplePlatform happyScript
    [Op.pause, Op.seek 30, Op.stop, Op.seek (-5), Op.pause] (by decide)⟩

/-! ## C6: session establishment is idempotent -/

/-- With a handle and a non-empty session id `ensurePlayer` returns at once. -/
theorem ensurePlayer_of_session (T : Transport τ) (P : Platform) (w : World τ)
    (hh : w.d.sessionHandle.isSome = true) (hid : w.d.sessionId ≠ "") :
    ensurePlayer T P w = (true, w) := by
  simp [ensurePlayer, hh, hid]

/-- A successful `ensurePlayer` ends with a handle and a non-empty session id. -/
theorem ensurePlayer_success_session (T : Transport τ) (P : Platform) (w : World τ)
    (h : (ensurePlayer T P w).1 = true) :
    (ensurePlayer T P w).2.d.sessionHandle.isSome = true ∧
      (ensurePlayer T P w).2.d.sessionId ≠ "" := by
  unfold ensurePlayer at h ⊢
  by_cases hc : w.d.sessionHandle.isSome = true ∧ w.d.sessionId ≠ ""
  · simp [hc]
  · simp only [hc, if_false] at h ⊢
    generalize T.LSRegister w.bus = r at h ⊢
    obtain ⟨⟨handle, msg⟩, bus1⟩ := r
    cases handle with
    | none => simp at h
    | some hd =>
      simp only at h ⊢
      generalize T.LSCallOneReply (some hd) (endpoint kRegister) _ bus1 = c at h ⊢
      obtain ⟨⟨ok, m, tok, reply⟩, bus2⟩ := c
      cases ok
      · simp at h
      · cases reply with
        | none =>
          by_cases hid : w.d.sessionId = ""
          · simp [hid] at h
          · simp [hid]
        | some p =>
          by_cases hid : ((P.fromJson p).object.value "sessionId").toString = ""
          · simp [registerCallback, hid] at h
          · simp [registerCallback, hid]

/-- C6: after a successful `ensurePlayer`, a second `ensurePlayer` succeeds and
returns the world it was given: no connection is opened, no register call
is made (trace and transport state are the same), no signal is emitted, and
the handle and session id are unchanged. -/
theorem ensurePlayer_idempotent (T : Transport τ) (P : Platform) (w : World τ)
    (h : (ensurePlayer T P w).1 = true) :
    ensurePlayer T P (ensurePlayer T P w).2 = (true, (ensurePlayer T P w).2) := by
  have hs := ensurePlayer_success_session T P w h
  exact ensurePlayer_of_session T P _ hs.1 hs.2

theorem ensurePlayer_idempotent_witness :
    (ensurePlayer scripted samplePlatform (init happyScript)).1 = true ∧
    ensurePlayer scripted samplePlatform
        (ensurePlayer scripted samplePlatform (init happyScript)).2 =
      (true, (ensurePlayer scripted samplePlatform (init happyScript)).2) :=
  ⟨by decide, ensurePlayer_idempotent scripted samplePlatform (init happyScript) (by decide)⟩

/-! ## C7: a register reply without a session id -/

/-- C7 at a failing input: on a new controller, when the connection opens and the
accepted register call is answered without a session id, `ensurePlayer`
returns false and emits one `errorOccurred`, and the session id is empty;
but the connection handle it opened is kept, so a later `pause()` is not a
no-op: it sends a pause call with an empty session id. -/
theorem failed_registration_keeps_handle :
    (ensurePlayer scripted samplePlatform (init noSessionIdScript)).1 = false ∧
    signals (ensurePlayer scripted samplePlatform (init noSessionIdScript)).2.trace =
      [.errorOccurred "Failed to obtain AVPlay session"] ∧
    (ensurePlayer scripted samplePlatform (init noSessionIdScript)).2.d.sessionId = "" ∧
    (ensurePlayer scripted samplePlatform (init noSessionIdScript)).2.d.sessionHandle = some 7 ∧
    rpcs (pause scripted
        (ensurePlayer scripted samplePlatform (init noSessionIdScript)).2).trace =
      rpcs (ensurePlayer scripted samplePlatform (init noSessionIdScript)).2.trace ++
        [.call (some 7) "luna://com.webos.media/pause" [("sessionId", .string "")]] := by
  refine ⟨by decide, by decide, by decide, by decide, ?_⟩
  simp [rpcs, ensurePlayer, init, scripted,
    noSessionIdScript, samplePlatform, sampleFromJson, registerCallback, emit, pause,
    postSimple, endpoint, kServiceUri, kPause, kRegister, QJsonDocument.object,
    QJsonObject.value, QJsonValue.toString, updateState]

/-! ## The poll -/

theorem signals_append (a b : List Obs) : signals (a ++ b) = signals a ++ signals b := by
  induction a with
  | nil => rfl
  | cons x t ih => cases x <;> simp [signals, ih]

/-- What an accepted poll with a non-empty status text at hand does to the trace:
the status call, a `stateChanged` when the text names a new non-empty state,
then `progressChanged` and `durationChanged`. -/
theorem handleTick_accepted_trace (T : Transport τ) (P : Platform) (w : World τ)
    (h : LSHandle) (text : String) (hh : w.d.sessionHandle = some h)
    (hok : (T.LSCallOneReply (some h) (endpoint kStateStatus)
        [("sessionId", .string w.d.sessionId)] w.bus).1.ok = true)
    (htext : (T.LSCallOneReply (some h) (endpoint kStateStatus)
        [("sessionId", .string w.d.sessionId)] w.bus).1.reply.getD w.d.lastStatus = text)
    (hne : text ≠ "") :
    (handleTick T P w).trace =
      w.trace ++
        [Obs.rpc (.callOneReply (some h) (endpoint kStateStatus)
          [("sessionId", .string w.d.sessionId)])] ++
        (if ((P.fromJson text).object.value "state").toString ≠ "" ∧
            ((P.fromJson text).object.value "state").toString ≠ w.d.state
          then [Obs.signal (.stateChanged ((P.fromJson text).object.value "state").toString)]
          else []) ++
        [Obs.signal (.progressChanged
            (toQint64 P (fdiv ((P.fromJson text).object.value kCurrentTime).toDouble 1000))),
         Obs.signal (.durationChanged
            (toQint64 P (fdiv ((P.fromJson text).object.value kDuration).toDouble 1000)))] := by
  unfold handleTick
  simp only [hh]
  generalize T.LSCallOneReply (some h) (endpoint kStateStatus) _ w.bus = c at hok htext ⊢
  obtain ⟨⟨ok, m, tok, reply⟩, bus2⟩ := c
  simp only at hok htext
  subst hok
  cases reply with
  | none =>
    simp only [Option.getD_none] at htext
    subst htext
    by_cases hst : ((P.fromJson w.d.lastStatus).object.value "state").toString = ""
    · simp [hne, hst, emit]
    · by_cases hsame : w.d.state = ((P.fromJson w.d.lastStatus).object.value "state").toString
      · simp [hne, hst, emit, updateState, hsame]
      · simp [hne, hst, emit, updateState, hsame, Ne.symm hsame]
  | some p =>
    simp only [Option.getD_some] at htext
    subst htext
    by_cases hst : ((P.fromJson p).object.value "state").toString = ""
    · simp [hne, hst, emit, statusCallback]
    · by_cases hsame : w.d.state = ((P.fromJson p).object.value "state").toString
      · simp [hne, hst, emit, updateState, hsame, statusCallback]
      · simp [hne, hst, emit, updateState, hsame, Ne.symm hsame, statusCallback]

/-- The signals of an accepted poll with a non-empty status text at hand. -/
theorem handleTick_accepted_signals (T : Transport τ) (P : Platform) (w : World τ)
    (h : LSHandle) (text : String) (hh : w.d.sessionHandle = some h)
    (hok : (T.LSCallOneReply (some h) (endpoint kStateStatus)
        [("sessionId", .string w.d.sessionId)] w.bus).1.ok = true)
    (htext : (T.LSCallOneReply (some h) (endpoint kStateStatus)
        [("sessionId", .string w.d.sessionId)] w.bus).1.reply.getD w.d.lastStatus = text)
    (hne : text ≠ "") :
    signals (handleTick T P w).trace =
      signals w.trace ++
        (if ((P.fromJson text).object.value "state").toString ≠ "" ∧
            ((P.fromJson text).object.value "state").toString ≠ w.d.state
          then [.stateChanged ((P.fromJson text).object.value "state").toString]
          else []) ++
        [.progressChanged
            (toQint64 P (fdiv ((P.fromJson text).object.value kCurrentTime).toDouble 1000)),
         .durationChanged
            (toQint64 P (fdiv ((P.fromJson text).object.value kDuration).toDouble 1000))] := by
  rw [handleTick_accepted_trace T P w h text hh hok htext hne]
  simp only [signals_append]
  split_ifs <;> simp [signals]

/-! ## C8: signals of a poll -/

/-- C8 as stated fails: after a successful load, a poll whose status call the
transport accepts emits neither `progressChanged` nor `durationChanged` when
no status text is at hand, be it that the reply has not been delivered or
that its payload is empty. -/
theorem accepted_poll_without_status_text_emits_nothing :
    (scripted.LSCallOneReply (some 7) (endpoint kStateStatus) [("sessionId", .string "sid-1")]
      (load scripted samplePlatform "http://x/a.m3u8" "application/x-mpegurl" false
        (init pendingReplyScript)).bus).1.ok = true ∧
    signals (handleTick scripted samplePlatform
      (load scripted samplePlatform "http://x/a.m3u8" "application/x-mpegurl" false
        (init pendingReplyScript))).trace = [.stateChanged "loaded"] ∧
    (scripted.LSCallOneReply (some 7) (endpoint kStateStatus) [("sessionId", .string "sid-1")]
      (load scripted samplePlatform "http://x/a.m3u8" "application/x-mpegurl" false
        (init emptyReplyScript)).bus).1.ok = true ∧
    signals (handleTick scripted samplePlatform
      (load scripted samplePlatform "http://x/a.m3u8" "application/x-mpegurl" false
        (init emptyReplyScript))).trace = [.stateChanged "loaded"] := by
  decide

/-- C8, amended: for every poll tick whose status call is accepted and for which a
non-empty status text is at hand (the payload delivered during the call, or
else the stored one), the trace grows by the status call, then a
`stateChanged` exactly when the observed state string is non-empty and
differs from the stored state, then one `progressChanged` and one
`durationChanged`, whatever the reported position and duration are. -/
theorem poll_signals (T : Transport τ) (P : Platform) (w : World τ)
    (h : LSHandle) (text : String) (hh : w.d.sessionHandle = some h)
    (hok : (T.LSCallOneReply (some h) (endpoint kStateStatus)
        [("sessionId", .string w.d.sessionId)] w.bus).1.ok = true)
    (htext : (T.LSCallOneReply (some h) (endpoint kStateStatus)
        [("sessionId", .string w.d.sessionId)] w.bus).1.reply.getD w.d.lastStatus = text)
    (hne : text ≠ "") :
    signals (handleTick T P w).trace =
      signals w.trace ++
        (if ((P.fromJson text).object.value "state").toString ≠ "" ∧
            ((P.fromJson text).object.value "state").toString ≠ w.d.state
          then [.stateChanged ((P.fromJson text).object.value "state").toString]
          else []) ++
        [.progressChanged
            (toQint64 P (fdiv ((P.fromJson text).object.value kCurrentTime).toDouble 1000)),
         .durationChanged
            (toQint64 P (fdiv ((P.fromJson text).object.value kDuration).toDouble 1000))] :=
  handleTick_accepted_signals T P w h text hh hok htext hne

theorem poll_signals_witness :
    signals (handleTick scripted samplePlatform
        (load scripted samplePlatform "http://x/a.m3u8" "application/x-mpegurl" false
          (init happyScript))).trace =
      signals (load scripted samplePlatform "http://x/a.m3u8" "application/x-mpegurl" false
          (init happyScript)).trace ++
        (if ((samplePlatform.fromJson "PLAYING").object.value "state").toString ≠ "" ∧
            ((samplePlatform.fromJson "PLAYING").object.value "state").toString ≠
              (load scripted samplePlatform "http://x/a.m3u8" "application/x-mpegurl" false
                (init happyScript)).d.state
          then [.stateChanged ((samplePlatform.fromJson "PLAYING").object.value "state").toString]
          else []) ++
        [.progressChanged (toQint64 samplePlatform
            (fdiv ((samplePlatform.fromJson "PLAYING").object.value kCurrentTime).toDouble 1000)),
         .durationChanged (toQint64 samplePlatform
            (fdiv ((samplePlatform.fromJson "PLAYING").object.value kDuration).toDouble 1000))] :=
  poll_signals scripted samplePlatform
    (load scripted samplePlatform "http://x/a.m3u8" "application/x-mpegurl" false
      (init happyScript)) 7 "PLAYING" (by decide) (by decide) (by decide) (by decide)

/-! ## C9: load, then one poll -/

/-- C9: on a new controller, with a transport that opens the connection, answers
the register call with session id `sid` (non-empty) and accepts the load call,
`load("http://x/a.m3u8", "application/x-mpegurl", false)` performs, in this
order, `LSRegister`, the register call, the load call carrying `sid`, source
type "media", the url and the mime, and then sets the state to "loaded"
(emitting `stateChanged("loaded")`) and starts the timer.  A following poll
answered with state "playing", currentTime 5000 and duration 120000 emits,
in this order, `stateChanged("playing")`, `progressChanged(5)` and
`durationChanged(120)`. -/
theorem end_to_end_load_then_poll (T : Transport τ) (P : Platform) (bus bus1 bus2 bus3 bus4 : τ)
    (h : LSHandle) (sid registerText statusText : String)
    (r1 : LSRegisterResult) (c2 c4 : LSCallOneReplyResult) (r3 : LSCallResult)
    (hregister : T.LSRegister bus = (r1, bus1)) (hhandle : r1.handle = some h)
    (hcall2 : T.LSCallOneReply (some h) (endpoint kRegister) [("subscribe", .bool true)] bus1
      = (c2, bus2))
    (hok2 : c2.ok = true) (hreply2 : c2.reply = some registerText)
    (hsid : ((P.fromJson registerText).object.value "sessionId").toString = sid)
    (hsidne : sid ≠ "")
    (hcall3 : T.LSCall (some h) (endpoint kLoad)
      (loadPayload sid "http://x/a.m3u8" "application/x-mpegurl" false) bus2 = (r3, bus3))
    (hok3 : r3.ok = true)
    (hcall4 : T.LSCallOneReply (some h) (endpoint kStateStatus) [("sessionId", .string sid)] bus3
      = (c4, bus4))
    (hok4 : c4.ok = true) (hreply4 : c4.reply = some statusText) (hne : statusText ≠ "")
    (hdoc : P.fromJson statusText = .ofObject
      [("state", .string "playing"), ("currentTime", .double 5000),
       ("duration", .double 120000)]) :
    (load T P "http://x/a.m3u8" "application/x-mpegurl" false (init bus)).trace =
      [Obs.rpc .register,
       Obs.rpc (.callOneReply (some h) "luna://com.webos.media/register"
         [("subscribe", .bool true)]),
       Obs.rpc (.call (some h) "luna://com.webos.media/load"
         [("sessionId", .string sid),
          ("payload", .object
            [("source", .object
               [("type", .string "media"), ("url", .string "http://x/a.m3u8"),
                ("mime", .string "application/x-mpegurl")]),
             ("options", .object
               [("transport", .string "hls"), ("fullscreen", .bool true)])])]),
       Obs.signal (.stateChanged "loaded")] ∧
    (load T P "http://x/a.m3u8" "application/x-mpegurl" false (init bus)).d.state = "loaded" ∧
    (load T P "http://x/a.m3u8" "application/x-mpegurl" false (init bus)).d.pollTimer.active
      = true ∧
    (handleTick T P
        (load T P "http://x/a.m3u8" "application/x-mpegurl" false (init bus))).trace =
      (load T P "http://x/a.m3u8" "application/x-mpegurl" false (init bus)).trace ++
        [Obs.rpc (.callOneReply (some h) "luna://com.webos.media/status"
           [("sessionId", .string sid)]),
         Obs.signal (.stateChanged "playing"),
         Obs.signal (.progressChanged 5),
         Obs.signal (.durationChanged 120)] := by
  have hens : ensurePlayer T P (init bus) =
      (true, { d := { (init bus).d with sessionHandle := some h, sessionId := sid }
               bus := bus2
               trace := [Obs.rpc .register,
                 Obs.rpc (.callOneReply (some h) (endpoint kRegister)
                   [("subscribe", .bool true)])] }) := by
    simp [ensurePlayer, init, hregister, hhandle, hcall2, hok2, hreply2, registerCallback,
      hsid, hsidne]
  have hload : load T P "http://x/a.m3u8" "application/x-mpegurl" false (init bus) =
      { d := { (init bus).d with sessionHandle := some h, sessionId := sid, state := "loaded",
                                 pollTimer := { interval := kStatusIntervalMs, active := true } }
        bus := bus3
        trace := [Obs.rpc .register,
          Obs.rpc (.callOneReply (some h) (endpoint kRegister) [("subscribe", .bool true)]),
          Obs.rpc (.call (some h) (endpoint kLoad)
            (loadPayload sid "http://x/a.m3u8" "application/x-mpegurl" false)),
          Obs.signal (.stateChanged "loaded")] } := by
    unfold load
    simp only [hens]
    simp [postSimple, hcall3, hok3, updateState, emit, init]
  have hep : ∀ m : String, endpoint m = "luna://com.webos.media/" ++ m := by
    intro m; simp [endpoint, kServiceUri, String.append_assoc]
  refine ⟨?_, ?_, ?_, ?_⟩
  · rw [hload]
    simp [hep, kRegister, kLoad, loadPayload]
  · rw [hload]
  · rw [hload]
  · have h5 : toQint64 P (fdiv (QJsonValue.double ((5000 : ℤ) : ℚ)).toDouble 1000) = 5 := by
      rw [toQint64_fdiv_toDouble P 5000 (by norm_num)]; decide
    have h120 : toQint64 P (fdiv (QJsonValue.double ((120000 : ℤ) : ℚ)).toDouble 1000) = 120 := by
      rw [toQint64_fdiv_toDouble P 120000 (by norm_num)]; decide
    rw [handleTick_accepted_trace T P _ h statusText (by rw [hload])
      (by rw [hload]; simp [hcall4, hok4]) (by rw [hload]; simp [hcall4, hreply4]) hne]
    rw [hdoc]
    have hcur : QJsonObject.value
        [("state", QJsonValue.string "playing"), ("currentTime", .double 5000),
         ("duration", .double 120000)] kCurrentTime = .double ((5000 : ℤ) : ℚ) := by
      simp [QJsonObject.value, kCurrentTime, List.lookup]
    have hdur : QJsonObject.value
        [("state", QJsonValue.string "playing"), ("currentTime", .double 5000),
         ("duration", .double 120000)] kDuration = .double ((120000 : ℤ) : ℚ) := by
      simp [QJsonObject.value, kDuration, List.lookup]
    have hst : (QJsonObject.value
        [("state", QJsonValue.string "playing"), ("currentTime", .double 5000),
         ("duration", .double 120000)] "state").toString = "playing" := by
      simp [QJsonObject.value, List.lookup, QJsonValue.toString]
    simp only [QJsonDocument.object, hcur, hdur, hst, h5, h120]
    rw [hload]
    simp [hep, kStateStatus]

theorem end_to_end_load_then_poll_witness :
    (load scripted samplePlatform "http://x/a.m3u8" "application/x-mpegurl" false
        (init happyScript)).d.state = "loaded" ∧
    signals (handleTick scripted samplePlatform
        (load scripted samplePlatform "http://x/a.m3u8" "application/x-mpegurl" false
          (init happyScript))).trace =
      [.stateChanged "loaded", .stateChanged "playing", .progressChanged 5,
       .durationChanged 120] := by
  have key := end_to_end_load_then_poll scripted samplePlatform happyScript
    { happyScript with registers := [] }
    { happyScript with registers := [], replies := [⟨true, "", some 1, some "PLAYING"⟩] }
    { registers := [], calls := [], replies := [⟨true, "", some 1, some "PLAYING"⟩] }
    { registers := [], calls := [], replies := [] }
    7 "sid-1" "SESSION" "PLAYING" ⟨some 7, ""⟩ ⟨true, "", none, some "SESSION"⟩
    ⟨true, "", some 1, some "PLAYING"⟩ ⟨true, ""⟩
    rfl rfl rfl rfl rfl (by decide) (by decide) rfl rfl rfl rfl rfl (by decide)
    (by simp [samplePlatform, sampleFromJson])
  refine ⟨key.2.1, ?_⟩
  rw [key.2.2.2, key.1]
  simp [signals]

/-! ## C10: milliseconds to seconds -/

/-- C10 as stated fails beyond 2^53: a poll that reports currentTime
9007199254741999 emits `progressChanged(9007199254742)`, one more than the
truncated quotient 9007199254741, because the number is first rounded to the
double 9007199254742000. -/
theorem poll_seconds_rounded_up_beyond_two_pow_53 :
    ((samplePlatform.fromJson "HUGE").object.value kCurrentTime) = .double 9007199254741999 ∧
    signals (handleTick scripted samplePlatform
        (load scripted samplePlatform "http://x/a.m3u8" "application/x-mpegurl" false
          (init hugeScript))).trace =
      [.stateChanged "loaded", .progressChanged 9007199254742, .durationChanged 0] ∧
    Int.tdiv 9007199254741999 1000 = 9007199254741 := by
  refine ⟨by simp [samplePlatform, sampleFromJson, QJsonDocument.object, QJsonObject.value,
    kCurrentTime], ?_, by decide⟩
  rw [handleTick_accepted_signals scripted samplePlatform _ 7 "HUGE" (by decide) (by decide) (by decide)
    (by decide)]
  have hs : signals (load scripted samplePlatform "http://x/a.m3u8" "application/x-mpegurl"
      false (init hugeScript)).trace = [.stateChanged "loaded"] := by decide
  have hstate : ((samplePlatform.fromJson "HUGE").object.value "state").toString = "" := by
    decide
  have hcur : ((samplePlatform.fromJson "HUGE").object.value kCurrentTime).toDouble =
      roundToDouble 9007199254741999 := by
    simp [samplePlatform, sampleFromJson, QJsonDocument.object, QJsonObject.value,
      kCurrentTime, QJsonValue.toDouble]
  have hdur : ((samplePlatform.fromJson "HUGE").object.value kDuration) =
      .double ((999 : ℤ) : ℚ) := by
    simp [samplePlatform, sampleFromJson, QJsonDocument.object, QJsonObject.value, kDuration,
      List.lookup]
  have hp : toQint64 samplePlatform (fdiv (roundToDouble 9007199254741999) 1000) =
      9007199254742 := by
    unfold toQint64
    simp only [truncate_fdiv_above_two_pow_53]
    rw [if_pos (by constructor <;> norm_num)]
  rw [hs, hstate, hcur, hdur, hp, toQint64_fdiv_toDouble samplePlatform 999 (by norm_num)]
  simp
  decide

/-- C10, amended: for all integers m and n of absolute value at most 2^53 reported
as currentTime and duration by an accepted poll, `progressChanged` carries
the quotient of m by 1000 truncated toward zero and `durationChanged` that
of n (1999 gives 1, 999 gives 0, -1999 gives -1). -/
theorem poll_seconds_truncate (T : Transport τ) (P : Platform) (w : World τ)
    (h : LSHandle) (text : String) (m n : ℤ) (hm : |m| ≤ 2 ^ 53) (hn : |n| ≤ 2 ^ 53)
    (hh : w.d.sessionHandle = some h)
    (hok : (T.LSCallOneReply (some h) (endpoint kStateStatus)
        [("sessionId", .string w.d.sessionId)] w.bus).1.ok = true)
    (htext : (T.LSCallOneReply (some h) (endpoint kStateStatus)
        [("sessionId", .string w.d.sessionId)] w.bus).1.reply.getD w.d.lastStatus = text)
    (hne : text ≠ "")
    (hcur : (P.fromJson text).object.value kCurrentTime = .double m)
    (hdur : (P.fromJson text).object.value kDuration = .double n) :
    (handleTick T P w).trace =
      w.trace ++
        [Obs.rpc (.callOneReply (some h) (endpoint kStateStatus)
          [("sessionId", .string w.d.sessionId)])] ++
        (if ((P.fromJson text).object.value "state").toString ≠ "" ∧
            ((P.fromJson text).object.value "state").toString ≠ w.d.state
          then [Obs.signal (.stateChanged ((P.fromJson text).object.value "state").toString)]
          else []) ++
        [Obs.signal (.progressChanged (m.tdiv 1000)),
         Obs.signal (.durationChanged (n.tdiv 1000))] := by
  rw [handleTick_accepted_trace T P w h text hh hok htext hne, hcur, hdur,
    toQint64_fdiv_toDouble P m hm, toQint64_fdiv_toDouble P n hn]

theorem poll_seconds_truncate_witness :
    Int.tdiv 1999 1000 = 1 ∧ Int.tdiv (-1999) 1000 = -1 ∧
    (handleTick scripted samplePlatform
        (load scripted samplePlatform "http://x/a.m3u8" "application/x-mpegurl" false
          (init edgeScript))).trace =
      (load scripted samplePlatform "http://x/a.m3u8" "application/x-mpegurl" false
          (init edgeScript)).trace ++
        [Obs.rpc (.callOneReply (some 7) (endpoint kStateStatus)
          [("sessionId", .string
            (load scripted samplePlatform "http://x/a.m3u8" "application/x-mpegurl" false
              (init edgeScript)).d.sessionId)])] ++
        (if ((samplePlatform.fromJson "EDGE").object.value "state").toString ≠ "" ∧
            ((samplePlatform.fromJson "EDGE").object.value "state").toString ≠
              (load scripted samplePlatform "http://x/a.m3u8" "application/x-mpegurl" false
                (init edgeScript)).d.state
          then [Obs.signal
            (.stateChanged ((samplePlatform.fromJson "EDGE").object.value "state").toString)]
          else []) ++
        [Obs.signal (.progressChanged (Int.tdiv 1999 1000)),
         Obs.signal (.durationChanged (Int.tdiv (-1999) 1000))] :=
  ⟨by decide, by decide,
   poll_seconds_truncate scripted samplePlatform
    (load scripted samplePlatform "http://x/a.m3u8" "application/x-mpegurl" false
      (init edgeScript)) 7 "EDGE" 1999 (-1999) (by norm_num) (by norm_num)
    (by decide) (by decide) (by decide) (by decide)
    (by simp [samplePlatform, sampleFromJson, QJsonDocument.object, QJsonObject.value,
      kCurrentTime])
    (by simp [samplePlatform, sampleFromJson, QJsonDocument.object, QJsonObject.value,
      kDuration, List.lookup])⟩

/-! ## C11: seek -/

theorem wrapInt64_of_fits (x : Int) (h : -(2 : Int) ^ 63 ≤ x ∧ x < 2 ^ 63) :
    wrapInt64 x = x := by
  unfold wrapInt64
  omega

/-- C11: with a connection handle and session id `sid`, and `s * 1000` within the
range of a signed 64-bit integer, `seek(s)` adds to the trace exactly one
seek call with request `{sessionId: sid, target: s * 1000}`, followed by one
`errorOccurred` (with the transport's message) when the call is rejected
and by nothing when it is accepted; no `stateChanged` is emitted and the
controller data, the playback state included, are unchanged. -/
theorem seek_sends_scaled_target (T : Transport τ) (w : World τ) (h : LSHandle) (s : Int)
    (hh : w.d.sessionHandle = some h)
    (hfit : -(2 : Int) ^ 63 ≤ s * 1000 ∧ s * 1000 < 2 ^ 63) :
    (seek T s w).trace =
      w.trace ++
        [Obs.rpc (.call (some h) (endpoint kSeek)
          [("sessionId", .string w.d.sessionId), ("target", .double ((s * 1000 : Int) : ℚ))])] ++
        (if (T.LSCall (some h) (endpoint kSeek)
              [("sessionId", .string w.d.sessionId), ("target", .double ((s * 1000 : Int) : ℚ))]
              w.bus).1.ok = true
          then []
          else [Obs.signal (.errorOccurred (T.LSCall (some h) (endpoint kSeek)
              [("sessionId", .string w.d.sessionId), ("target", .double ((s * 1000 : Int) : ℚ))]
              w.bus).1.message)]) ∧
    (seek T s w).d = w.d := by
  unfold seek
  simp only [hh, wrapInt64_of_fits _ hfit, postSimple]
  cases hok : (T.LSCall (some h) (endpoint kSeek)
      [("sessionId", .string w.d.sessionId), ("target", .double ((s * 1000 : Int) : ℚ))]
      w.bus).1.ok <;> simp [emit]

theorem seek_sends_scaled_target_witness :
    (seek scripted 30 withSession).trace =
      withSession.trace ++
        [Obs.rpc (.call (some 7) "luna://com.webos.media/seek"
          [("sessionId", .string "sid-1"), ("target", .double 30000)]),
         Obs.signal (.errorOccurred "busy")] ∧
    (seek scripted 30 withSession).d = withSession.d := by
  have key := seek_sends_scaled_target scripted withSession 7 30 (by decide) (by decide)
  have hsid : withSession.d.sessionId = "sid-1" := by decide
  have hok : (scripted.LSCall (some 7) (endpoint kSeek)
      [("sessionId", .string "sid-1"), ("target", .double (((30 : Int) * 1000 : Int) : ℚ))]
      withSession.bus).1.ok = false := by decide
  have hmsg : (scripted.LSCall (some 7) (endpoint kSeek)
      [("sessionId", .string "sid-1"), ("target", .double (((30 : Int) * 1000 : Int) : ℚ))]
      withSession.bus).1.message = "busy" := by decide
  rw [hsid, hok, hmsg] at key
  refine ⟨?_, key.2⟩
  rw [key.1]
  have hep : endpoint kSeek = "luna://com.webos.media/seek" := by decide
  rw [hep]
  norm_num

/-! ## C12: stop -/

/-- C12: with a connection handle, `stop()` adds to the trace one stop call and,
unless the state already was "stopped", one `stateChanged("stopped")`, and
nothing else, so no `errorOccurred`, whatever the transport answers;
afterwards the poll timer is halted, the state is "stopped", and the handle
and the session id are the ones from before. -/
theorem stop_halts_polling (T : Transport τ) (w : World τ) (h : LSHandle)
    (hh : w.d.sessionHandle = some h) :
    (stop T w).trace =
      w.trace ++
        [Obs.rpc (.call (some h) (endpoint kStop) [("sessionId", .string w.d.sessionId)])] ++
        (if w.d.state = "stopped" then [] else [Obs.signal (.stateChanged "stopped")]) ∧
    (stop T w).d.pollTimer.active = false ∧
    (stop T w).d.state = "stopped" ∧
    (stop T w).d.sessionHandle = some h ∧
    (stop T w).d.sessionId = w.d.sessionId := by
  unfold stop
  simp only [hh, postSimple, updateState]
  by_cases hs : w.d.state = "stopped" <;> simp [hs, emit]

theorem stop_halts_polling_witness :
    pollingRefused.d.sessionHandle = some 7 ∧
    (scripted.LSCall (some 7) (endpoint kStop) [("sessionId", .string "sid-1")]
      pollingRefused.bus).1.ok = false ∧
    signals (stop scripted pollingRefused).trace =
      signals pollingRefused.trace ++ [.stateChanged "stopped"] ∧
    pollingRefused.d.pollTimer.active = true ∧
    (stop scripted pollingRefused).d.pollTimer.active = false ∧
    (stop scripted pollingRefused).d.state = "stopped" ∧
    (stop scripted pollingRefused).d.sessionHandle = some 7 ∧
    (stop scripted pollingRefused).d.sessionId = pollingRefused.d.sessionId := by
  have key := stop_halts_polling scripted pollingRefused 7 (by decide)
  refine ⟨by decide, by decide, ?_, by decide, key.2.1, key.2.2.1, key.2.2.2.1, key.2.2.2.2⟩
  rw [key.1, signals_append, signals_append]
  have hs : pollingRefused.d.state ≠ "stopped" := by decide
  simp [hs, signals]

/-! ## C16: pause -/

/-- C16: with a connection handle, a `pause()` whose call is accepted leaves the
state "paused" and adds to the trace only the pause call and, when the state
changes, `stateChanged("paused")`; a `pause()` whose call is rejected adds
the pause call and exactly one `errorOccurred` carrying the transport's
message, and leaves all controller data as they were: playback state,
connection handle, session id and poll timer. -/
theorem pause_accepted_or_rejected (T : Transport τ) (w : World τ) (h : LSHandle)
    (hh : w.d.sessionHandle = some h) :
    ((T.LSCall (some h) (endpoint kPause) [("sessionId", .string w.d.sessionId)] w.bus).1.ok
        = true →
      (pause T w).d.state = "paused" ∧
      (pause T w).trace =
        w.trace ++
          [Obs.rpc (.call (some h) (endpoint kPause) [("sessionId", .string w.d.sessionId)])] ++
          (if w.d.state = "paused" then [] else [Obs.signal (.stateChanged "paused")])) ∧
    ((T.LSCall (some h) (endpoint kPause) [("sessionId", .string w.d.sessionId)] w.bus).1.ok
        = false →
      (pause T w).d = w.d ∧
      (pause T w).trace =
        w.trace ++
          [Obs.rpc (.call (some h) (endpoint kPause) [("sessionId", .string w.d.sessionId)]),
           Obs.signal (.errorOccurred
             (T.LSCall (some h) (endpoint kPause) [("sessionId", .string w.d.sessionId)]
               w.bus).1.message)]) := by
  unfold pause
  simp only [hh, postSimple, updateState]
  constructor
  · intro hok
    by_cases hs : w.d.state = "paused" <;> simp [hok, hs, emit]
  · intro hok
    simp [hok, emit]

theorem pause_accepted_or_rejected_witness :
    pollingRefused.d.sessionHandle = some 7 ∧
    (pause scripted pollingRefused).d = pollingRefused.d ∧
    signals (pause scripted pollingRefused).trace =
      signals pollingRefused.trace ++ [.errorOccurred "busy"] := by
  have key := (pause_accepted_or_rejected scripted pollingRefused 7 (by decide)).2 (by decide)
  refine ⟨by decide, key.1, ?_⟩
  rw [key.2, signals_append]
  have hm : (scripted.LSCall (some 7) (endpoint kPause)
      [("sessionId", .string pollingRefused.d.sessionId)] pollingRefused.bus).1.message
      = "busy" := by decide
  simp [hm, signals]

/-! ## C18: a rejected poll -/

/-- C18: with a connection handle and the poll timer running, a `handleTick` whose
status call the transport rejects emits no signal at all (the trace grows by
the status call only), leaves the playback state unchanged and leaves the
poll timer running. -/
theorem rejected_poll_is_silent (T : Transport τ) (P : Platform) (w : World τ) (h : LSHandle)
    (hh : w.d.sessionHandle = some h) (hrun : w.d.pollTimer.active = true)
    (hrej : (T.LSCallOneReply (some h) (endpoint kStateStatus)
        [("sessionId", .string w.d.sessionId)] w.bus).1.ok = false) :
    (handleTick T P w).trace =
      w.trace ++
        [Obs.rpc (.callOneReply (some h) (endpoint kStateStatus)
          [("sessionId", .string w.d.sessionId)])] ∧
    signals (handleTick T P w).trace = signals w.trace ∧
    (handleTick T P w).d.state = w.d.state ∧
    (handleTick T P w).d.pollTimer.active = true := by
  have ht : (handleTick T P w).trace =
      w.trace ++ [Obs.rpc (.callOneReply (some h) (endpoint kStateStatus)
          [("sessionId", .string w.d.sessionId)])] ∧
      (handleTick T P w).d.state = w.d.state ∧
      (handleTick T P w).d.pollTimer = w.d.pollTimer := by
    unfold handleTick
    simp only [hh, hrej]
    cases (T.LSCallOneReply (some h) (endpoint kStateStatus)
        [("sessionId", .string w.d.sessionId)] w.bus).1.reply <;> simp [statusCallback]
  refine ⟨ht.1, ?_, ht.2.1, ?_⟩
  · rw [ht.1, signals_append]; simp [signals]
  · rw [ht.2.2]; exact hrun

theorem rejected_poll_is_silent_witness :
    pollingRefused.d.sessionHandle = some 7 ∧
    pollingRefused.d.pollTimer.active = true ∧
    signals (handleTick scripted samplePlatform pollingRefused).trace =
      signals pollingRefused.trace ∧
    (handleTick scripted samplePlatform pollingRefused).d.state = pollingRefused.d.state ∧
    (handleTick scripted samplePlatform pollingRefused).d.pollTimer.active = true :=
  ⟨by decide, by decide,
   (rejected_poll_is_silent scripted samplePlatform pollingRefused 7 (by decide) (by decide)
     (by decide)).2⟩

/-! ## C13: teardown twice -/

theorem teardown_handle (T : Transport τ) (w : World τ) :
    (teardown T w).d.sessionHandle = none := by
  unfold teardown
  cases hs : (stop T w).d.sessionHandle <;> simp [hs]

theorem teardown_sessionId (T : Transport τ) (w : World τ) :
    (teardown T w).d.sessionId = "" := rfl

/-- Without a connection handle and with an empty session id `teardown` changes nothing. -/
theorem teardown_of_no_session (T : Transport τ) (w : World τ)
    (hh : w.d.sessionHandle = none) (hid : w.d.sessionId = "") : teardown T w = w := by
  obtain ⟨⟨handle, tok, sid, st, ls, pt, le⟩, bus, tr⟩ := w
  simp only at hh hid
  subst hh hid
  simp [teardown, stop]

/-- C13 as stated fails in the description of the state after `teardown`: when the
controller has no connection handle while the poll timer is running (reached
by a `load` whose call the transport accepts although no connection could be
opened), `teardown` returns from `stop` at once and the timer keeps
running, after one `teardown` and after two. -/
theorem teardown_without_handle_keeps_timer :
    pollingWithoutHandle.d.sessionHandle = none ∧
    pollingWithoutHandle.d.pollTimer.active = true ∧
    (teardown scripted pollingWithoutHandle).d.pollTimer.active = true ∧
    (teardown scripted (teardown scripted pollingWithoutHandle)).d.pollTimer.active = true := by
  decide

/-- C13, amended: `teardown` is idempotent.  For every controller state and every
transport, `teardown(); teardown()` ends in the same world as one
`teardown()` (so the second call makes no transport call and emits no
signal); after `teardown` the connection handle is released and the session
id is empty, and the poll timer is halted whenever a connection handle was
present before the call. -/
theorem teardown_idempotent (T : Transport τ) (w : World τ) :
    teardown T (teardown T w) = teardown T w ∧
    (teardown T (teardown T w)).trace = (teardown T w).trace ∧
    (teardown T w).d.sessionHandle = none ∧
    (teardown T w).d.sessionId = "" ∧
    (w.d.sessionHandle ≠ none → (teardown T w).d.pollTimer.active = false) := by
  have h1 : teardown T (teardown T w) = teardown T w :=
    teardown_of_no_session T _ (teardown_handle T w) (teardown_sessionId T w)
  refine ⟨h1, by rw [h1], teardown_handle T w, teardown_sessionId T w, ?_⟩
  intro hh
  obtain ⟨h, hh⟩ := Option.ne_none_iff_exists'.mp hh
  unfold teardown stop
  simp only [hh, postSimple, updateState]
  by_cases hs : w.d.state = "stopped" <;> simp [hs, emit]

theorem teardown_idempotent_witness :
    polling.d.sessionHandle ≠ none ∧
    polling.d.pollTimer.active = true ∧
    teardown scripted (teardown scripted polling) = teardown scripted polling ∧
    (teardown scripted polling).d.pollTimer.active = false :=
  ⟨by decide, by decide, (teardown_idempotent scripted polling).1,
   (teardown_idempotent scripted polling).2.2.2.2 (by decide)⟩

/-! ## C14: after teardown -/

/-- Without a connection handle any number of polls changes nothing. -/
theorem handleTick_iterate_of_no_handle (T : Transport τ) (P : Platform) (n : Nat)
    (w : World τ) (hh : w.d.sessionHandle = none) : (handleTick T P)^[n] w = w := by
  induction n with
  | zero => rfl
  | succ k ih =>
    have h1 : handleTick T P w = w := by simp [handleTick, hh]
    rw [Function.iterate_succ_apply, h1, ih]

/-- C14: after `teardown()`, a late status reply followed by any number of
`handleTick` invocations adds nothing to the trace (no transport call, no
`stateChanged`, `progressChanged` or `durationChanged`) and leaves the
playback state, the handle and the session id as `teardown` left them: the
late reply is stored and never applied. -/
theorem no_resurrection_after_teardown (T : Transport τ) (P : Platform) (w : World τ)
    (payload : String) (n : Nat) :
    ((handleTick T P)^[n] (statusCallback payload (teardown T w))).trace = (teardown T w).trace ∧
    ((handleTick T P)^[n] (statusCallback payload (teardown T w))).d.state
      = (teardown T w).d.state ∧
    ((handleTick T P)^[n] (statusCallback payload (teardown T w))).d.sessionHandle = none ∧
    ((handleTick T P)^[n] (statusCallback payload (teardown T w))).d.sessionId = "" ∧
    ((handleTick T P)^[n] (statusCallback payload (teardown T w))).bus = (teardown T w).bus := by
  have hh : (statusCallback payload (teardown T w)).d.sessionHandle = none :=
    teardown_handle T w
  rw [handleTick_iterate_of_no_handle T P n _ hh]
  exact ⟨rfl, rfl, teardown_handle T w, rfl, rfl⟩

/-! ## C15: play -/

/-- What `ensurePlayer` does besides the session: the playback state is kept, the
trace only grows, by one `errorOccurred` when it fails and by none when it
succeeds, and never by a command call. -/
theorem ensurePlayer_frame (T : Transport τ) (P : Platform) (w : World τ) :
    (ensurePlayer T P w).2.d.state = w.d.state ∧
    ∃ delta : List Obs, (ensurePlayer T P w).2.trace = w.trace ++ delta ∧
      delta.countP Obs.isError = (if (ensurePlayer T P w).1 = true then 0 else 1) ∧
      ∀ m : String, delta.countP (Obs.isCallTo m) = 0 := by
  unfold ensurePlayer
  by_cases hc : w.d.sessionHandle.isSome = true ∧ w.d.sessionId ≠ ""
  · rw [if_pos hc]
    exact ⟨rfl, [], by simp, by simp, by simp⟩
  · rw [if_neg hc]
    generalize T.LSRegister w.bus = r
    obtain ⟨⟨handle, msg⟩, bus1⟩ := r
    cases handle with
    | none =>
      refine ⟨rfl, [Obs.rpc .register, Obs.signal (.errorOccurred msg)], ?_, ?_, ?_⟩
      · simp [emit]
      · simp [Obs.isError]
      · simp [Obs.isCallTo]
    | some hd =>
      simp only
      generalize T.LSCallOneReply (some hd) (endpoint kRegister) _ bus1 = c
      obtain ⟨⟨ok, m, tok, reply⟩, bus2⟩ := c
      cases ok
      · refine ⟨by cases reply <;> rfl,
          [Obs.rpc .register,
           Obs.rpc (.callOneReply (some hd) (endpoint kRegister) [("subscribe", .bool true)]),
           Obs.signal (.errorOccurred m)], ?_, ?_, ?_⟩
        · cases reply <;> simp [emit, registerCallback]
        · simp [Obs.isError]
        · simp [Obs.isCallTo]
      · cases reply with
        | none =>
          by_cases hid : w.d.sessionId = ""
          · refine ⟨by simp [hid, emit],
              [Obs.rpc .register,
               Obs.rpc (.callOneReply (some hd) (endpoint kRegister)
                 [("subscribe", .bool true)]),
               Obs.signal (.errorOccurred "Failed to obtain AVPlay session")], ?_, ?_, ?_⟩
            · simp [hid, emit]
            · simp [hid, Obs.isError]
            · simp [Obs.isCallTo]
          · refine ⟨by simp [hid],
              [Obs.rpc .register,
               Obs.rpc (.callOneReply (some hd) (endpoint kRegister)
                 [("subscribe", .bool true)])], ?_, ?_, ?_⟩
            · simp [hid]
            · simp [hid, Obs.isError]
            · simp [Obs.isCallTo]
        | some p =>
          by_cases hid : ((P.fromJson p).object.value "sessionId").toString = ""
          · refine ⟨by simp [hid, emit, registerCallback],
              [Obs.rpc .register,
               Obs.rpc (.callOneReply (some hd) (endpoint kRegister)
                 [("subscribe", .bool true)]),
               Obs.signal (.errorOccurred "Failed to obtain AVPlay session")], ?_, ?_, ?_⟩
            · simp [hid, emit, registerCallback]
            · simp [hid, Obs.isError, registerCallback]
            · simp [Obs.isCallTo]
          · refine ⟨by simp [hid, registerCallback],
              [Obs.rpc .register,
               Obs.rpc (.callOneReply (some hd) (endpoint kRegister)
                 [("subscribe", .bool true)])], ?_, ?_, ?_⟩
            · simp [hid, registerCallback]
            · simp [hid, Obs.isError, registerCallback]
            · simp [Obs.isCallTo]

/-- C15: `play()` with a session ensured and the play call accepted leaves the
state "playing".  When no session can be established, `play()` emits exactly
one `errorOccurred`, keeps the playback state and sends no play call.  When
the session is ensured but the play call is rejected, it emits exactly one
`errorOccurred` and keeps the playback state. -/
theorem play_outcomes (T : Transport τ) (P : Platform) (w : World τ) :
    ((ensurePlayer T P w).1 = true →
      (T.LSCall (ensurePlayer T P w).2.d.sessionHandle (endpoint kPlay)
        [("sessionId", .string (ensurePlayer T P w).2.d.sessionId)]
        (ensurePlayer T P w).2.bus).1.ok = true →
      (play T P w).d.state = "playing") ∧
    ((ensurePlayer T P w).1 = false →
      (play T P w).trace.countP Obs.isError = w.trace.countP Obs.isError + 1 ∧
      (play T P w).d.state = w.d.state ∧
      (play T P w).trace.countP (Obs.isCallTo kPlay) = w.trace.countP (Obs.isCallTo kPlay)) ∧
    ((ensurePlayer T P w).1 = true →
      (T.LSCall (ensurePlayer T P w).2.d.sessionHandle (endpoint kPlay)
        [("sessionId", .string (ensurePlayer T P w).2.d.sessionId)]
        (ensurePlayer T P w).2.bus).1.ok = false →
      (play T P w).trace.countP Obs.isError = w.trace.countP Obs.isError + 1 ∧
      (play T P w).d.state = w.d.state) := by
  obtain ⟨hstate, delta, htrace, herr, hcall⟩ := ensurePlayer_frame T P w
  refine ⟨?_, ?_, ?_⟩
  · intro he hok
    unfold play
    simp [he, postSimple, hok, updateState_state]
  · intro he
    have hp : play T P w = (ensurePlayer T P w).2 := by
      unfold play; simp [he]
    rw [hp, htrace, hstate]
    simp [List.countP_append, herr, he, hcall]
  · intro he hok
    unfold play
    simp only [he, postSimple, hok]
    simp [emit, htrace, List.countP_append, herr, he, hstate, Obs.isError]

theorem play_outcomes_witness :
    (ensurePlayer scripted samplePlatform (init sessionScript)).1 = true ∧
    (play scripted samplePlatform (init sessionScript)).d.state = "playing" ∧
    (ensurePlayer scripted samplePlatform (init deadScript)).1 = false ∧
    (play scripted samplePlatform (init deadScript)).trace.countP Obs.isError = 1 ∧
    (play scripted samplePlatform (init deadScript)).d.state = "" :=
  ⟨by decide,
   (play_outcomes scripted samplePlatform (init sessionScript)).1 (by decide) (by decide),
   by decide,
   ((play_outcomes scripted samplePlatform (init deadScript)).2.1 (by decide)).1,
   ((play_outcomes scripted samplePlatform (init deadScript)).2.1 (by decide)).2.1⟩

/-! ## C19: missing or malformed status payload -/

theorem toQint64_fdiv_zero (P : Platform) : toQint64 P (fdiv 0 1000) = 0 := by
  have h : fdiv 0 1000 = 0 := by
    simp [fdiv, roundToDouble, roundPos_zero]
  rw [h]
  simp [toQint64, truncate]

/-- C19 as stated fails for a missing payload: an accepted poll whose reply payload
is empty emits no signal at all, so neither `progressChanged(0)` nor
`durationChanged(0)`. -/
theorem missing_payload_reports_nothing :
    (scripted.LSCallOneReply (some 7) (endpoint kStateStatus) [("sessionId", .string "sid-1")]
      (load scripted samplePlatform "http://x/a.m3u8" "application/x-mpegurl" false
        (init emptyReplyScript)).bus).1.reply = some "" ∧
    (scripted.LSCallOneReply (some 7) (endpoint kStateStatus) [("sessionId", .string "sid-1")]
      (load scripted samplePlatform "http://x/a.m3u8" "application/x-mpegurl" false
        (init emptyReplyScript)).bus).1.ok = true ∧
    signals (handleTick scripted samplePlatform
      (load scripted samplePlatform "http://x/a.m3u8" "application/x-mpegurl" false
        (init emptyReplyScript))).trace =
      signals (load scripted samplePlatform "http://x/a.m3u8" "application/x-mpegurl" false
        (init emptyReplyScript)).trace ∧
    Signal.progressChanged 0 ∉ signals (handleTick scripted samplePlatform
      (load scripted samplePlatform "http://x/a.m3u8" "application/x-mpegurl" false
        (init emptyReplyScript))).trace ∧
    Signal.durationChanged 0 ∉ signals (handleTick scripted samplePlatform
      (load scripted samplePlatform "http://x/a.m3u8" "application/x-mpegurl" false
        (init emptyReplyScript))).trace := by
  decide

/-- C19, amended: for every accepted poll with a non-empty status text at hand that
is not a JSON object, or is an object without the members state, currentTime
and duration, `handleTick` adds to the trace the status call,
`progressChanged(0)` and `durationChanged(0)` and nothing else: no
`errorOccurred`, no `stateChanged`. -/
theorem malformed_status_defaults_to_zero (T : Transport τ) (P : Platform) (w : World τ)
    (h : LSHandle) (text : String) (hh : w.d.sessionHandle = some h)
    (hok : (T.LSCallOneReply (some h) (endpoint kStateStatus)
        [("sessionId", .string w.d.sessionId)] w.bus).1.ok = true)
    (htext : (T.LSCallOneReply (some h) (endpoint kStateStatus)
        [("sessionId", .string w.d.sessionId)] w.bus).1.reply.getD w.d.lastStatus = text)
    (hne : text ≠ "")
    (hmal : (∀ o, P.fromJson text ≠ .ofObject o) ∨
      (∃ o, P.fromJson text = .ofObject o ∧ o.lookup "state" = none ∧
        o.lookup kCurrentTime = none ∧ o.lookup kDuration = none)) :
    (handleTick T P w).trace =
      w.trace ++
        [Obs.rpc (.callOneReply (some h) (endpoint kStateStatus)
          [("sessionId", .string w.d.sessionId)]),
         Obs.signal (.progressChanged 0),
         Obs.signal (.durationChanged 0)] := by
  have hvals : (P.fromJson text).object.value "state" = .undefined ∧
      (P.fromJson text).object.value kCurrentTime = .undefined ∧
      (P.fromJson text).object.value kDuration = .undefined := by
    rcases hmal with hno | ⟨o, ho, h1, h2, h3⟩
    · cases hdoc : P.fromJson text with
      | null => simp [QJsonDocument.object, QJsonObject.value]
      | ofArray xs => simp [QJsonDocument.object, QJsonObject.value]
      | ofObject o => exact absurd hdoc (hno o)
    · simp [ho, QJsonDocument.object, QJsonObject.value, h1, h2, h3]
  rw [handleTick_accepted_trace T P w h text hh hok htext hne, hvals.1, hvals.2.1, hvals.2.2]
  simp [QJsonValue.toString, QJsonValue.toDouble, toQint64_fdiv_zero]

theorem malformed_status_defaults_to_zero_witness :
    samplePlatform.fromJson "GARBAGE" = .null ∧
    signals (handleTick scripted samplePlatform
      (load scripted samplePlatform "http://x/a.m3u8" "application/x-mpegurl" false
        (init garbageReplyScript))).trace =
      signals (load scripted samplePlatform "http://x/a.m3u8" "application/x-mpegurl" false
        (init garbageReplyScript)).trace ++ [.progressChanged 0, .durationChanged 0] := by
  have hnull : samplePlatform.fromJson "GARBAGE" = .null := by
    simp [samplePlatform, sampleFromJson]
  have key := malformed_status_defaults_to_zero scripted samplePlatform
    (load scripted samplePlatform "http://x/a.m3u8" "application/x-mpegurl" false
      (init garbageReplyScript)) 7 "GARBAGE" (by decide) (by decide) (by decide) (by decide)
    (Or.inl (by intro o; rw [hnull]; exact fun hc => QJsonDocument.noConfusion hc))
  refine ⟨hnull, ?_⟩
  rw [key, signals_append]
  simp [signals]

/-! ## C20: a status reply stored before a stop -/

/-- C20 at a failing input: a status reply that arrived before `stop()` is still
stored after the next successful `load`, and the first accepted poll tick
after that load, whose own reply has not arrived, applies it: it emits
`stateChanged("playing")`, `progressChanged(5)` and `durationChanged(120)`
taken from the reply of the stopped playback. -/
theorem stale_status_applied_after_reload :
    afterReload.d.lastStatus = "PLAYING" ∧
    afterReload.d.state = "loaded" ∧
    afterReload.d.pollTimer.active = true ∧
    signals afterReload.trace =
      [.stateChanged "loaded", .stateChanged "stopped", .stateChanged "loaded"] ∧
    (scripted.LSCallOneReply afterReload.d.sessionHandle (endpoint kStateStatus)
      [("sessionId", .string afterReload.d.sessionId)] afterReload.bus).1.reply = none ∧
    signals (exec scripted samplePlatform .tick afterReload).trace =
      signals afterReload.trace ++
        [.stateChanged "playing", .progressChanged 5, .durationChanged 120] := by
  refine ⟨by decide, by decide, by decide, by decide, by decide, ?_⟩
  have hrun : afterReload.d.pollTimer.active = true := by decide
  simp only [exec, hrun, if_true]
  rw [handleTick_accepted_signals scripted samplePlatform afterReload 7 "PLAYING"
    (by decide) (by decide) (by decide) (by decide)]
  have hstate : ((samplePlatform.fromJson "PLAYING").object.value "state").toString
      = "playing" := by decide
  have hcur : (samplePlatform.fromJson "PLAYING").object.value kCurrentTime =
      .double ((5000 : ℤ) : ℚ) := by
    simp [samplePlatform, sampleFromJson, QJsonDocument.object, QJsonObject.value,
      kCurrentTime, List.lookup]
  have hdur : (samplePlatform.fromJson "PLAYING").object.value kDuration =
      .double ((120000 : ℤ) : ℚ) := by
    simp [samplePlatform, sampleFromJson, QJsonDocument.object, QJsonObject.value,
      kDuration, List.lookup]
  have hst : afterReload.d.state = "loaded" := by decide
  rw [hstate, hcur, hdur, hst, toQint64_fdiv_toDouble samplePlatform 5000 (by norm_num),
    toQint64_fdiv_toDouble samplePlatform 120000 (by norm_num)]
  simp
  decide

/-! ## C17: no duplicate state notifications -/

theorem stateChanges_append (a b : List Obs) :
    stateChanges (a ++ b) = stateChanges a ++ stateChanges b := by
  induction a with
  | nil => rfl
  | cons x t ih =>
    cases x with
    | rpc c => simp [stateChanges, ih]
    | signal sig => cases sig <;> simp [stateChanges, ih]

/-- A step that keeps the stored state and adds no `stateChanged` keeps the invariant. -/
theorem StateInv.of_frame {w w' : World τ} (hinv : StateInv w)
    (hstate : w'.d.state = w.d.state)
    (htrace : stateChanges w'.trace = stateChanges w.trace) : StateInv w' := by
  unfold StateInv at hinv ⊢
  rw [htrace, hstate]
  exact hinv

theorem StateInv.updateState {w : World τ} (hinv : StateInv w) (state : String) :
    StateInv (updateState state w) := by
  unfold WebOSMediaPlayer.updateState
  by_cases hs : w.d.state = state
  · simpa [hs] using hinv
  · simp only [hs, if_false]
    unfold StateInv at hinv ⊢
    obtain ⟨hchain, hlast⟩ := hinv
    simp only [emit, stateChanges_append, stateChanges]
    refine ⟨?_, by simp⟩
    refine List.Chain'.append hchain (List.chain'_singleton state) ?_
    intro x hx y hy
    simp only [List.head?_cons, Option.mem_def, Option.some.injEq] at hy
    subst hy
    rw [Option.mem_def] at hx
    rw [hx] at hlast
    simp only [Option.getD_some] at hlast
    rw [hlast]
    exact hs

theorem StateInv.postSimple {w : World τ} (hinv : StateInv w) (T : Transport τ)
    (h : Option LSHandle) (m : String) (p : QJsonObject) : StateInv (postSimple T h m p w).2 :=
  hinv.of_frame rfl (by simp [WebOSMediaPlayer.postSimple, stateChanges_append, stateChanges])

theorem StateInv.emit_error {w : World τ} (hinv : StateInv w) (msg : String) :
    StateInv (emit (.errorOccurred msg) w) :=
  hinv.of_frame rfl (by simp [emit, stateChanges_append, stateChanges])

theorem StateInv.ensurePlayer {w : World τ} (hinv : StateInv w) (T : Transport τ)
    (P : Platform) : StateInv (ensurePlayer T P w).2 := by
  refine hinv.of_frame (ensurePlayer_frame T P w).1 ?_
  unfold WebOSMediaPlayer.ensurePlayer
  by_cases hc : w.d.sessionHandle.isSome = true ∧ w.d.sessionId ≠ ""
  · rw [if_pos hc]
  · rw [if_neg hc]
    generalize T.LSRegister w.bus = r
    obtain ⟨⟨handle, msg⟩, bus1⟩ := r
    cases handle with
    | none => simp [emit, stateChanges_append, stateChanges]
    | some hd =>
      simp only
      generalize T.LSCallOneReply (some hd) (endpoint kRegister) _ bus1 = c
      obtain ⟨⟨ok, m, tok, reply⟩, bus2⟩ := c
      cases ok <;> cases reply <;> simp only [] <;> split_ifs <;>
        simp [emit, registerCallback, stateChanges_append, stateChanges]

theorem StateInv.load {w : World τ} (hinv : StateInv w) (T : Transport τ) (P : Platform)
    (url mimeType : String) (live : Bool) : StateInv (load T P url mimeType live w) := by
  unfold WebOSMediaPlayer.load
  simp only
  split_ifs
  · exact ((hinv.ensurePlayer T P).postSimple T _ _ _).emit_error _
  · exact (((hinv.ensurePlayer T P).postSimple T _ _ _).updateState "loaded").of_frame rfl rfl

theorem StateInv.play {w : World τ} (hinv : StateInv w) (T : Transport τ) (P : Platform) :
    StateInv (play T P w) := by
  unfold WebOSMediaPlayer.play
  simp only
  split_ifs
  · exact hinv.ensurePlayer T P
  · exact ((hinv.ensurePlayer T P).postSimple T _ _ _).emit_error _
  · exact ((hinv.ensurePlayer T P).postSimple T _ _ _).updateState "playing"

theorem StateInv.pause {w : World τ} (hinv : StateInv w) (T : Transport τ) :
    StateInv (pause T w) := by
  unfold WebOSMediaPlayer.pause
  split
  · exact hinv
  · simp only
    split_ifs
    · exact (hinv.postSimple T _ _ _).emit_error _
    · exact (hinv.postSimple T _ _ _).updateState "paused"

theorem StateInv.seek {w : World τ} (hinv : StateInv w) (T : Transport τ) (seconds : Int) :
    StateInv (seek T seconds w) := by
  unfold WebOSMediaPlayer.seek
  split
  · exact hinv
  · simp only
    split_ifs
    · exact (hinv.postSimple T _ _ _).emit_error _
    · exact hinv.postSimple T _ _ _

theorem StateInv.stop {w : World τ} (hinv : StateInv w) (T : Transport τ) :
    StateInv (stop T w) := by
  unfold WebOSMediaPlayer.stop
  split
  · exact hinv
  · simp only
    apply StateInv.updateState
    exact (hinv.postSimple T _ _ _).of_frame rfl rfl

theorem StateInv.teardown {w : World τ} (hinv : StateInv w) (T : Transport τ) :
    StateInv (teardown T w) := by
  unfold WebOSMediaPlayer.teardown
  simp only
  split
  · exact (hinv.stop T).of_frame rfl (by simp [stateChanges_append, stateChanges])
  · exact (hinv.stop T).of_frame rfl rfl

theorem StateInv.handleTick {w : World τ} (hinv : StateInv w) (T : Transport τ)
    (P : Platform) : StateInv (handleTick T P w) := by
  unfold WebOSMediaPlayer.handleTick
  split
  · exact hinv
  · next h hh =>
    have hbase : ∀ (tok : LSToken) (ls : String) (bus : τ),
        StateInv ({ d := { w.d with statusToken := tok, lastStatus := ls }, bus := bus,
                    trace := w.trace ++ [Obs.rpc (.callOneReply (some h) (endpoint kStateStatus)
                      [("sessionId", .string w.d.sessionId)])] } : World τ) :=
      fun tok ls bus => hinv.of_frame rfl (by simp [stateChanges_append, stateChanges])
    have hemit : ∀ {v : World τ}, StateInv v → ∀ a b : Int,
        StateInv ({ emit (.durationChanged b) (emit (.progressChanged a) v) with
          d := { (emit (.durationChanged b) (emit (.progressChanged a) v)).d with
            lastStatus := "" } } : World τ) :=
      fun hv a b => hv.of_frame rfl (by simp [emit, stateChanges_append, stateChanges])
    simp only
    cases (T.LSCallOneReply (some h) (endpoint kStateStatus)
        [("sessionId", .string w.d.sessionId)] w.bus).1.reply with
    | none =>
      simp only
      split_ifs
      · exact hbase _ w.d.lastStatus _
      · exact hemit (StateInv.updateState (hbase _ w.d.lastStatus _) _) _ _
      · exact hemit (hbase _ w.d.lastStatus _) _ _
      · exact hbase _ w.d.lastStatus _
    | some p =>
      simp only [statusCallback]
      split_ifs
      · exact hbase _ p _
      · exact hemit (StateInv.updateState (hbase _ p _) _) _ _
      · exact hemit (hbase _ p _) _ _
      · exact hbase _ p _

theorem StateInv.exec {w : World τ} (hinv : StateInv w) (T : Transport τ) (P : Platform)
    (o : Op) : StateInv (exec T P o w) := by
  cases o with
  | load url mimeType live => exact hinv.load T P url mimeType live
  | play => exact hinv.play T P
  | pause => exact hinv.pause T
  | seek seconds => exact hinv.seek T seconds
  | stop => exact hinv.stop T
  | teardown => exact hinv.teardown T
  | tick =>
    simp only [WebOSMediaPlayer.exec]
    split_ifs
    · exact hinv.handleTick T P
    · exact hinv
  | registerReply payload => exact hinv.of_frame rfl rfl
  | statusReply payload => exact hinv.of_frame rfl rfl

theorem StateInv.run (T : Transport τ) (P : Platform) (ops : List Op) :
    ∀ {w : World τ}, StateInv w → StateInv (run T P ops w) := by
  induction ops with
  | nil => intro w hinv; exact hinv
  | cons o rest ih =>
    intro w hinv
    exact ih (hinv.exec T P o)

theorem StateInv.init (bus : τ) : StateInv (init bus : World τ) := by
  simp [StateInv, WebOSMediaPlayer.init, stateChanges]

/-- C17: in the trace of every finite sequence of controller operations (`load`,
`play`, `pause`, `seek`, `stop`, `teardown`, poll ticks, and reply callbacks
arriving in between) on a new controller, under every transport, no two
consecutive `stateChanged` signals carry the same state string, and the
stored playback state equals the argument of the most recent `stateChanged`,
or the initial state when none was emitted. -/
theorem no_duplicate_state_notifications (T : Transport τ) (P : Platform) (bus : τ)
    (ops : List Op) :
    List.Chain' (fun a b => a ≠ b) (stateChanges (run T P ops (init bus)).trace) ∧
    (stateChanges (run T P ops (init bus)).trace).getLast?.getD (init bus).d.state =
      (run T P ops (init bus)).d.state :=
  StateInv.run T P ops (StateInv.init bus)

/-! ## C21: timer and session id imply a handle -/

/-- A step that keeps the timer, the handle and the session id keeps the invariant. -/
theorem SessionInv.keep_frame {w w' : World τ} (hinv : SessionInv w)
    (htimer : w'.d.pollTimer.active = w.d.pollTimer.active)
    (hhandle : w'.d.sessionHandle = w.d.sessionHandle)
    (hid : w'.d.sessionId = w.d.sessionId) : SessionInv w' := by
  unfold SessionInv at hinv ⊢
  rw [htimer, hhandle, hid]
  exact hinv

/-- With a handle the invariant holds, whatever the timer and the session id. -/
theorem SessionInv.of_handle {w : World τ} (hh : w.d.sessionHandle.isSome = true) :
    SessionInv w :=
  ⟨fun _ => hh, fun _ => hh⟩

theorem updateState_frame (state : String) (w : World τ) :
    (updateState state w).d.pollTimer = w.d.pollTimer ∧
    (updateState state w).d.sessionHandle = w.d.sessionHandle ∧
    (updateState state w).d.sessionId = w.d.sessionId := by
  unfold updateState
  split <;> exact ⟨rfl, rfl, rfl⟩

theorem SessionInv.after_updateState {w : World τ} (hinv : SessionInv w) (state : String) :
    SessionInv (updateState state w) :=
  hinv.keep_frame (by rw [(updateState_frame state w).1]) (updateState_frame state w).2.1
    (updateState_frame state w).2.2

theorem SessionInv.after_ensurePlayer {w : World τ} (hinv : SessionInv w) (T : Transport τ)
    (P : Platform) : SessionInv (ensurePlayer T P w).2 := by
  unfold WebOSMediaPlayer.ensurePlayer
  by_cases hc : w.d.sessionHandle.isSome = true ∧ w.d.sessionId ≠ ""
  · rw [if_pos hc]; exact hinv
  · rw [if_neg hc]
    generalize T.LSRegister w.bus = r
    obtain ⟨⟨handle, msg⟩, bus1⟩ := r
    cases handle with
    | none => exact hinv.keep_frame rfl rfl rfl
    | some hd =>
      simp only
      generalize T.LSCallOneReply (some hd) (endpoint kRegister) _ bus1 = c
      obtain ⟨⟨ok, m, tok, reply⟩, bus2⟩ := c
      apply SessionInv.of_handle
      cases ok <;> cases reply <;> simp only [] <;> split_ifs <;>
        simp [emit, registerCallback]

theorem SessionInv.after_load {w : World τ} (hinv : SessionInv w) (T : Transport τ) (P : Platform)
    (hrej : ∀ uri payload bus, (T.LSCall none uri payload bus).1.ok = false)
    (url mimeType : String) (live : Bool) : SessionInv (load T P url mimeType live w) := by
  have he := hinv.after_ensurePlayer T P
  unfold WebOSMediaPlayer.load
  simp only
  split_ifs with hok
  · exact he.keep_frame rfl rfl rfl
  · apply SessionInv.of_handle
    have hsome : (WebOSMediaPlayer.ensurePlayer T P w).2.d.sessionHandle.isSome = true := by
      cases hh : (WebOSMediaPlayer.ensurePlayer T P w).2.d.sessionHandle with
      | none =>
        exfalso
        apply hok
        rw [postSimple_fst, hh]
        exact hrej _ _ _
      | some h => rfl
    simpa [(updateState_frame "loaded" _).2.1, postSimple_d] using hsome

theorem SessionInv.after_play {w : World τ} (hinv : SessionInv w) (T : Transport τ) (P : Platform) :
    SessionInv (play T P w) := by
  have he := hinv.after_ensurePlayer T P
  unfold WebOSMediaPlayer.play
  simp only
  split_ifs
  · exact he
  · exact he.keep_frame rfl rfl rfl
  · apply SessionInv.after_updateState
    exact he.keep_frame rfl rfl rfl

theorem SessionInv.after_pause {w : World τ} (hinv : SessionInv w) (T : Transport τ) :
    SessionInv (pause T w) := by
  unfold WebOSMediaPlayer.pause
  split
  · exact hinv
  · simp only
    split_ifs
    · exact hinv.keep_frame rfl rfl rfl
    · apply SessionInv.after_updateState
      exact hinv.keep_frame rfl rfl rfl

theorem SessionInv.after_seek {w : World τ} (hinv : SessionInv w) (T : Transport τ)
    (seconds : Int) : SessionInv (seek T seconds w) := by
  unfold WebOSMediaPlayer.seek
  split
  · exact hinv
  · simp only
    split_ifs <;> exact hinv.keep_frame rfl rfl rfl

theorem SessionInv.after_stop {w : World τ} (hinv : SessionInv w) (T : Transport τ) :
    SessionInv (stop T w) := by
  unfold WebOSMediaPlayer.stop
  split
  · exact hinv
  · next h hh =>
    apply SessionInv.of_handle
    simp [(updateState_frame "stopped" _).2.1, postSimple_d, hh]

theorem SessionInv.after_teardown (T : Transport τ) (w : World τ) (hinv : SessionInv w) :
    SessionInv (teardown T w) := by
  constructor
  · intro hactive
    exfalso
    cases hh : w.d.sessionHandle with
    | none =>
      have hoff : w.d.pollTimer.active = false := by
        cases ha : w.d.pollTimer.active with
        | false => rfl
        | true => simpa [hh] using hinv.1 ha
      have hsame : (WebOSMediaPlayer.teardown T w).d.pollTimer.active
          = w.d.pollTimer.active := by
        simp [WebOSMediaPlayer.teardown, WebOSMediaPlayer.stop, hh]
      rw [hsame, hoff] at hactive
      exact Bool.false_ne_true hactive
    | some h =>
      have hoff : (WebOSMediaPlayer.teardown T w).d.pollTimer.active = false := by
        unfold WebOSMediaPlayer.teardown WebOSMediaPlayer.stop
        simp only [hh, postSimple, WebOSMediaPlayer.updateState]
        by_cases hs : w.d.state = "stopped" <;> simp [hs, emit]
      rw [hoff] at hactive
      exact Bool.false_ne_true hactive
  · intro hid
    exact absurd rfl hid

theorem SessionInv.after_handleTick {w : World τ} (hinv : SessionInv w) (T : Transport τ)
    (P : Platform) : SessionInv (handleTick T P w) := by
  unfold WebOSMediaPlayer.handleTick
  split
  · exact hinv
  · next h hh =>
    apply SessionInv.of_handle
    simp only
    cases (T.LSCallOneReply (some h) (endpoint kStateStatus)
        [("sessionId", .string w.d.sessionId)] w.bus).1.reply <;>
      simp only [statusCallback] <;> split_ifs <;>
      simp [emit, (updateState_frame _ _).2.1, hh]

theorem SessionInv.after_exec {w : World τ} (hinv : SessionInv w) (T : Transport τ) (P : Platform)
    (hrej : ∀ uri payload bus, (T.LSCall none uri payload bus).1.ok = false)
    (o : Op) (ho : o.isOperation = true) : SessionInv (exec T P o w) := by
  cases o with
  | load url mimeType live => exact hinv.after_load T P hrej url mimeType live
  | play => exact hinv.after_play T P
  | pause => exact hinv.after_pause T
  | seek seconds => exact hinv.after_seek T seconds
  | stop => exact hinv.after_stop T
  | teardown => exact SessionInv.after_teardown T w hinv
  | tick =>
    simp only [WebOSMediaPlayer.exec]
    split_ifs
    · exact hinv.after_handleTick T P
    · exact hinv
  | registerReply payload => simp [Op.isOperation] at ho
  | statusReply payload => simp [Op.isOperation] at ho

theorem SessionInv.after_run (T : Transport τ) (P : Platform)
    (hrej : ∀ uri payload bus, (T.LSCall none uri payload bus).1.ok = false)
    (ops : List Op) :
    ∀ {w : World τ}, (∀ o ∈ ops, o.isOperation = true) → SessionInv w →
      SessionInv (run T P ops w) := by
  induction ops with
  | nil => intro w _ hinv; exact hinv
  | cons o rest ih =>
    intro w hops hinv
    exact ih (fun o' ho' => hops o' (List.mem_cons_of_mem _ ho'))
      (hinv.after_exec T P hrej o (hops o (List.mem_cons_self _ _)))

theorem SessionInv.at_init (bus : τ) : SessionInv (init bus : World τ) := by
  simp [SessionInv, WebOSMediaPlayer.init]

/-- C21: for a transport that rejects every command (`LSCall`) sent on an absent
connection handle, every state reached from a new controller by the
operations `load`, `play`, `pause`, `seek`, `stop`, `teardown` and timer
ticks satisfies: if the poll timer is running then a connection handle is
present, and if the session id is non-empty then a connection handle is
present. -/
theorem timer_and_session_id_imply_handle (T : Transport τ) (P : Platform)
    (hrej : ∀ uri payload bus, (T.LSCall none uri payload bus).1.ok = false)
    (bus : τ) (ops : List Op) (hops : ∀ o ∈ ops, o.isOperation = true) :
    ((run T P ops (init bus)).d.pollTimer.active = true →
      (run T P ops (init bus)).d.sessionHandle.isSome = true) ∧
    ((run T P ops (init bus)).d.sessionId ≠ "" →
      (run T P ops (init bus)).d.sessionHandle.isSome = true) :=
  SessionInv.after_run T P hrej ops hops (SessionInv.at_init bus)

theorem timer_and_session_id_imply_handle_witness :
    (∀ uri payload bus, (strictScripted.LSCall none uri payload bus).1.ok = false) ∧
    (∀ o ∈ [Op.load "http://x/a.m3u8" "application/x-mpegurl" false, Op.tick, Op.pause],
      o.isOperation = true) ∧
    (run strictScripted samplePlatform
      [Op.load "http://x/a.m3u8" "application/x-mpegurl" false, Op.tick, Op.pause]
      (init happyScript)).d.pollTimer.active = true ∧
    (run strictScripted samplePlatform
      [Op.load "http://x/a.m3u8" "application/x-mpegurl" false, Op.tick, Op.pause]
      (init happyScript)).d.sessionId ≠ "" ∧
    (run strictScripted samplePlatform
      [Op.load "http://x/a.m3u8" "application/x-mpegurl" false, Op.tick, Op.pause]
      (init happyScript)).d.sessionHandle.isSome = true :=
  ⟨fun _ _ _ => rfl, by decide, by decide, by decide,
   (timer_and_session_id_imply_handle strictScripted samplePlatform (fun _ _ _ => rfl)
      happyScript [Op.load "http://x/a.m3u8" "application/x-mpegurl" false, Op.tick, Op.pause]
      (by decide)).1 (by decide)⟩

end WebOSMediaPlayer
